import Mathlib

/-!
Verification development for the semantic-extraction pipeline and the widget
storage of this repository.

The TypeScript sources are shallowly embedded in Lean:

* JavaScript numbers are modelled as exact rationals (`ℚ`); every comparison
  and arithmetic operation performed by the code on the inputs considered here
  is exact, so the rational model and the double model agree on all control
  flow that the theorems below depend on.  The one genuinely real-valued
  function, `calculateBoundingBox` under a non-zero rotation angle, is
  embedded twice: once over `ℚ` with the trigonometric functions abstracted as
  parameters (they are never invoked on the inputs of the pipeline theorems,
  all of which have `angle = 0`), and once over `ℝ` with `Real.cos`/`Real.sin`
  for the numerical bounding-box claim.
* JavaScript `Map` objects are modelled as association lists with
  insertion-order semantics (`jsMapSet` replaces in place or appends).
* Fallible operations return `Option`/pairs with a `Bool` success flag.
-/

/-! ## JavaScript primitive semantics -/

/-- JS `\s` whitespace (ASCII part; the strings handled by the pipeline and by
every theorem below are ASCII). -/
def isJsWhitespace (c : Char) : Bool :=
  c = ' ' ∨ c = '\t' ∨ c = '\n' ∨ c = '\r' ∨ c = '\x0b' ∨ c = '\x0c'

/-- Characters NOT matched by the JS regex `.` (dot): line terminators. -/
def isJsLineTerminator (c : Char) : Bool :=
  c = '\n' ∨ c = '\r' ∨ c.toNat = 0x2028 ∨ c.toNat = 0x2029

/-- ASCII lower-casing, the behaviour of `String.prototype.toLowerCase` on the
ASCII strings that occur in this development. -/
def jsLowerChar (c : Char) : Char :=
  if 'A' ≤ c ∧ c ≤ 'Z' then Char.ofNat (c.toNat + 32) else c

def jsToLower (s : String) : String :=
  ⟨s.data.map jsLowerChar⟩

def trimLeftChars : List Char → List Char
  | [] => []
  | c :: cs => if isJsWhitespace c then trimLeftChars cs else c :: cs

/-- `String.prototype.trim`. -/
def jsTrim (s : String) : String :=
  ⟨(trimLeftChars (trimLeftChars s.data.reverse).reverse)⟩

/-- `String.prototype.includes` (substring containment). -/
def containsAux (sub : List Char) : List Char → Bool
  | [] => sub.isPrefixOf []
  | c :: cs => sub.isPrefixOf (c :: cs) || containsAux sub cs

def containsStr (s sub : String) : Bool :=
  containsAux sub.data s.data

/-- Case-insensitive prefix test (for `/i` regexes). -/
def isPrefixOfCI : List Char → List Char → Bool
  | [], _ => true
  | _ :: _, [] => false
  | p :: ps, c :: cs => (jsLowerChar p = jsLowerChar c) && isPrefixOfCI ps cs

def containsCIAux (sub : List Char) : List Char → Bool
  | [] => isPrefixOfCI sub []
  | c :: cs => isPrefixOfCI sub (c :: cs) || containsCIAux sub cs

/-- Case-insensitive substring containment, the `test` of a plain-word `/i`
regex. -/
def containsCI (s sub : String) : Bool :=
  containsCIAux sub.data s.data

/-- JS `a || b` defaulting for optional string fields: `undefined` and the
empty string are falsy. -/
def jsOrStr (v : Option String) (d : String) : String :=
  match v with
  | some s => if s = "" then d else s
  | none => d

/-- JS `a || b` defaulting for optional numeric fields: `undefined` and `0`
are falsy. -/
def jsOrNum (v : Option ℚ) (d : ℚ) : ℚ :=
  match v with
  | some q => if q = 0 then d else q
  | none => d

/-- JS `element.text || undefined`: the empty string is collapsed to
`undefined`. -/
def jsOrUndef (v : Option String) : Option String :=
  match v with
  | some s => if s = "" then none else some s
  | none => v

/-- `Array.prototype.join(sep)`. -/
def jsJoin (sep : String) : List String → String
  | [] => ""
  | [s] => s
  | s :: rest => s ++ sep ++ jsJoin sep rest

/-- The result of JS `String(x)` on a plain object, as produced when
`Array.prototype.join` stringifies non-string array members. -/
def jsObjectString : String := "[object Object]"

/-- Decimal rendering of a number used only inside human-readable `reasoning`
strings.  The exact digit string JS would produce is irrelevant: no theorem
below inspects a reasoning string. -/
def jsNumStr (q : ℚ) : String := toString q

/-! ## JavaScript `Map` semantics (association lists, insertion order) -/

/-- `Map.prototype.set`: replace the value of an existing key in place,
otherwise append the new entry. -/
def jsMapSet {α : Type} : List (String × α) → String → α → List (String × α)
  | [], k, v => [(k, v)]
  | (k', v') :: rest, k, v =>
    if k' = k then (k, v) :: rest else (k', v') :: jsMapSet rest k v

/-- `Map.prototype.get` (`undefined` becomes `none`). -/
def jsMapGet {α : Type} : List (String × α) → String → Option α
  | [], _ => none
  | (k', v') :: rest, k => if k' = k then some v' else jsMapGet rest k

/-- `Map.prototype.has`. -/
def jsMapHas {α : Type} (m : List (String × α)) (k : String) : Bool :=
  (jsMapGet m k).isSome

/-- `Map.prototype.delete` (removes the unique entry of the key). -/
def jsMapDelete {α : Type} : List (String × α) → String → List (String × α)
  | [], _ => []
  | (k', v') :: rest, k =>
    if k' = k then rest else (k', v') :: jsMapDelete rest k

/-! ## Extraction pipeline: data model (src: extraction worker, types) -/

/-- `ComponentRole` enum from the extraction types module. -/
inductive ComponentRole
  | BUTTON | INPUT_FIELD | DROPDOWN | CHECKBOX | RADIO_BUTTON | TOGGLE | SLIDER
  | CARD | MODAL | SIDEBAR | HEADER | FOOTER | PANEL | TAB_CONTAINER
  | TEXT_BLOCK | TITLE | LABEL | ICON | IMAGE_PLACEHOLDER
  | MENU | BREADCRUMB | PAGINATION | NAVIGATION_BAR
  | TABLE | LIST | CHART | GRAPH
  | PROCESS_STEP | DECISION_POINT | CONNECTOR | START_END
  | CONTAINER | COMPONENT | UNKNOWN
  | WIDGET
deriving DecidableEq, Repr

/-- `WidgetType` enum (values `map`/`video`/`iframe`/`chart`/`calendar`). -/
inductive WidgetType
  | map | video | iframe | chart | calendar
deriving DecidableEq, Repr

/-- The string value of a `WidgetType` member (used in reasoning text). -/
def widgetTypeStr : WidgetType → String
  | .map => "map"
  | .video => "video"
  | .iframe => "iframe"
  | .chart => "chart"
  | .calendar => "calendar"

/-- A raw Excalidraw element as consumed by the worker (dynamically typed in
the source; optional fields are explicit here). -/
structure RawElement where
  id : String
  type : String
  x : ℚ
  y : ℚ
  width : ℚ
  height : ℚ
  angle : ℚ := 0
  backgroundColor : Option String := none
  strokeColor : Option String := none
  strokeWidth : Option ℚ := none
  roundness : Option ℚ := none
  fontSize : Option ℚ := none
  opacity : Option ℚ := none
  text : Option String := none
  groupIds : List String := []
deriving DecidableEq, Repr

structure BoundingBox where
  x : ℚ
  y : ℚ
  width : ℚ
  height : ℚ
  centerX : ℚ
  centerY : ℚ
  area : ℚ
deriving DecidableEq, Repr

structure ElementStyle where
  backgroundColor : String
  strokeColor : String
  strokeWidth : ℚ
  roundness : ℚ
  fontSize : ℚ
  opacity : ℚ
deriving DecidableEq, Repr

structure NormalizedElement where
  id : String
  type : String
  boundingBox : BoundingBox
  style : ElementStyle
  text : Option String
  angle : ℚ
  groupId : Option String
  zIndex : ℕ
deriving DecidableEq, Repr

structure ElementGroups where
  rectangles : List NormalizedElement
  diamonds : List NormalizedElement
  ellipses : List NormalizedElement
  arrows : List NormalizedElement
  lines : List NormalizedElement
  text : List NormalizedElement
  images : List NormalizedElement
  other : List NormalizedElement
deriving DecidableEq, Repr

/-! ## Stage 1: element normalization (src: `normalizeElement`,
`calculateBoundingBox`, `normalizeElements`)

`calculateBoundingBox` calls `Math.cos`/`Math.sin` when `angle ≠ 0`; the two
trigonometric functions are abstracted as parameters `cosF`/`sinF` of the
embedding (every pipeline theorem below holds for all values of these
parameters, and every concrete input below has `angle = 0`, for which the
source skips the rotation branch entirely). -/

def calculateBoundingBox (cosF sinF : ℚ → ℚ) (e : RawElement) : BoundingBox :=
  let p : ℚ × ℚ × ℚ × ℚ :=
    if e.angle ≠ 0 then
      let c := cosF e.angle
      let s := sinF e.angle
      -- rotated corners of (0,0), (w,0), (w,h), (0,h)
      let r0x := 0 * c - 0 * s
      let r1x := e.width * c - 0 * s
      let r2x := e.width * c - e.height * s
      let r3x := 0 * c - e.height * s
      let r0y := 0 * s + 0 * c
      let r1y := e.width * s + 0 * c
      let r2y := e.width * s + e.height * c
      let r3y := 0 * s + e.height * c
      let minX := min (min (min r0x r1x) r2x) r3x
      let maxX := max (max (max r0x r1x) r2x) r3x
      let minY := min (min (min r0y r1y) r2y) r3y
      let maxY := max (max (max r0y r1y) r2y) r3y
      (e.x + minX, e.y + minY, maxX - minX, maxY - minY)
    else
      (e.x, e.y, e.width, e.height)
  let x := p.1
  let y := p.2.1
  let width := p.2.2.1
  let height := p.2.2.2
  { x := x, y := y, width := width, height := height,
    centerX := x + width / 2, centerY := y + height / 2,
    area := width * height }

def normalizeElement (cosF sinF : ℚ → ℚ) (e : RawElement) (index : ℕ) :
    NormalizedElement :=
  { id := e.id
    type := e.type
    boundingBox := calculateBoundingBox cosF sinF e
    style :=
      { backgroundColor := jsOrStr e.backgroundColor "transparent"
        strokeColor := jsOrStr e.strokeColor "#000000"
        strokeWidth := jsOrNum e.strokeWidth 1
        roundness := jsOrNum e.roundness 0
        fontSize := jsOrNum e.fontSize 16
        opacity := jsOrNum e.opacity 1 }
    text := jsOrUndef e.text
    angle := e.angle
    groupId := e.groupIds.head?
    zIndex := index }

/-- All elements normalized in order, each with its array index as `zIndex`. -/
def normalizeAll (cosF sinF : ℚ → ℚ) : ℕ → List RawElement →
    List NormalizedElement
  | _, [] => []
  | i, e :: es => normalizeElement cosF sinF e i :: normalizeAll cosF sinF (i + 1) es

/-- The `type` values with a dedicated bucket in `ElementGroups`. -/
def knownTypes : List String :=
  ["rectangle", "diamond", "ellipse", "arrow", "line", "text", "image"]

/-- `normalizeElements`: one pass over the input pushing each normalized
element into the bucket of its `type` (a stable partition, rendered here as
order-preserving filters of the normalized list). -/
def normalizeElements (cosF sinF : ℚ → ℚ) (elements : List RawElement) :
    ElementGroups :=
  let all := normalizeAll cosF sinF 0 elements
  { rectangles := all.filter (fun e => e.type = "rectangle")
    diamonds := all.filter (fun e => e.type = "diamond")
    ellipses := all.filter (fun e => e.type = "ellipse")
    arrows := all.filter (fun e => e.type = "arrow")
    lines := all.filter (fun e => e.type = "line")
    text := all.filter (fun e => e.type = "text")
    images := all.filter (fun e => e.type = "image")
    other := all.filter (fun e => ¬ e.type ∈ knownTypes) }

/-! ## Stage 2: container detection (src: `detectContainers`, `isContained`,
`calculateOverlap`) -/

structure ContainerHierarchy where
  containers : List NormalizedElement
  containmentMap : List (String × List String)
  parentMap : List (String × String)
deriving DecidableEq, Repr

def calculateOverlap (box1 box2 : BoundingBox) : ℚ :=
  let left := max box1.x box2.x
  let right := min (box1.x + box1.width) (box2.x + box2.width)
  let top := max box1.y box2.y
  let bottom := min (box1.y + box1.height) (box2.y + box2.height)
  if left ≥ right ∨ top ≥ bottom then 0
  else (right - left) * (bottom - top)

def isContained (element container : NormalizedElement) : Bool :=
  let centerInside :=
    element.boundingBox.centerX ≥ container.boundingBox.x ∧
    element.boundingBox.centerX ≤ container.boundingBox.x + container.boundingBox.width ∧
    element.boundingBox.centerY ≥ container.boundingBox.y ∧
    element.boundingBox.centerY ≤ container.boundingBox.y + container.boundingBox.height
  if centerInside then true
  else
    let overlap := calculateOverlap element.boundingBox container.boundingBox
    let overlapRatio := overlap / element.boundingBox.area
    overlapRatio > 0.5

/-- Insertion sort by ascending `zIndex` (stable, matching `Array.sort` with
the comparator `a.zIndex - b.zIndex`; the pipeline assigns pairwise distinct
`zIndex` values, for which every correct sort agrees). -/
def insertByZ (e : NormalizedElement) : List NormalizedElement →
    List NormalizedElement
  | [] => [e]
  | x :: xs => if x.zIndex ≤ e.zIndex then x :: insertByZ e xs else e :: x :: xs

def sortByZ : List NormalizedElement → List NormalizedElement
  | [] => []
  | x :: xs => insertByZ x (sortByZ xs)

/-- State of the two maps threaded through `detectContainers`. -/
structure ContainmentState where
  containmentMap : List (String × List String)
  parentMap : List (String × String)
deriving DecidableEq, Repr

/-- Inner loop of the containment pass: one container claiming every
not-yet-parented element it contains. -/
def claimChildren (container : NormalizedElement)
    (elements : List NormalizedElement) (st : ContainmentState) :
    ContainmentState :=
  let step := fun (acc : List String × List (String × String))
      (element : NormalizedElement) =>
    if element.id = container.id then acc          -- skip self
    else if jsMapHas acc.2 element.id then acc     -- already has a parent
    else if isContained element container then
      (acc.1 ++ [element.id], jsMapSet acc.2 element.id container.id)
    else acc
  let r := elements.foldl step ([], st.parentMap)
  { containmentMap :=
      if r.1 ≠ [] then jsMapSet st.containmentMap container.id r.1
      else st.containmentMap
    parentMap := r.2 }

/-- Grouping of elements by `groupId` (insertion order of first members),
src: the `groups_by_id` map. -/
def groupsById (elements : List NormalizedElement) :
    List (String × List NormalizedElement) :=
  elements.foldl
    (fun acc element =>
      match element.groupId with
      | none => acc
      | some gid =>
        match jsMapGet acc gid with
        | none => jsMapSet acc gid [element]
        | some members => jsMapSet acc gid (members ++ [element]))
    []

def detectContainers (groups : ElementGroups) : ContainerHierarchy :=
  let sizeThreshold : ℚ := 5000
  let potentialContainers :=
    sortByZ (groups.rectangles.filter (fun el => el.boundingBox.area > sizeThreshold) ++
      groups.ellipses.filter (fun el => el.boundingBox.area > sizeThreshold))
  let allElements :=
    groups.rectangles ++ groups.diamonds ++ groups.ellipses ++
    groups.text ++ groups.images ++ groups.other
  -- containment pass
  let st := potentialContainers.foldl
    (fun st container => claimChildren container allElements st)
    { containmentMap := [], parentMap := [] }
  -- native group pass (overwrites containment-based parents of group members)
  let groupedElements := allElements.filter (fun el => el.groupId.isSome)
  let st := (groupsById groupedElements).foldl
    (fun (st : ContainmentState) (g : String × List NormalizedElement) =>
      let groupElementIds := g.2.map (fun el => el.id)
      { containmentMap := jsMapSet st.containmentMap ("group-" ++ g.1) groupElementIds
        parentMap := groupElementIds.foldl
          (fun pm elementId => jsMapSet pm elementId ("group-" ++ g.1))
          st.parentMap })
    st
  { containers := potentialContainers
    containmentMap := st.containmentMap
    parentMap := st.parentMap }

/-! ## Stage 3: text attachment (src: `attachText`, `findTextAttachment`,
`isTextTitle`, `calculateHorizontalOverlap`) -/

/-- Attachment kinds are the string literals of the source
(`title` / `body` / `standalone`; the fourth literal of the union never
occurs in this module). -/
structure TextAttachment where
  textId : String
  attachedTo : Option String
  attachmentType : String
  confidence : ℚ
deriving DecidableEq, Repr

def calculateHorizontalOverlap (box1 box2 : BoundingBox) : ℚ :=
  let left := max box1.x box2.x
  let right := min (box1.x + box1.width) (box2.x + box2.width)
  if left ≥ right then 0
  else
    let overlap := right - left
    let minWidth := min box1.width box2.width
    overlap / minWidth

def isTextTitle (textElement container : NormalizedElement) : Bool :=
  let relativeY := (textElement.boundingBox.centerY - container.boundingBox.y) /
    container.boundingBox.height
  let isInUpperPortion := relativeY < 0.3
  let isLargerFont := jsOrNum (some textElement.style.fontSize) 16 > 16
  isInUpperPortion || isLargerFont

/-- The per-element test of the title-scan loop (the loop's two `continue`
guards and its `if` condition). -/
def titleScanMatch (textElement : NormalizedElement)
    (element : NormalizedElement) : Bool :=
  if element.id = textElement.id then false
  else if element.type = "text" then false
  else
    let titleThreshold : ℚ := 20
    let distanceAbove := element.boundingBox.y -
      (textElement.boundingBox.y + textElement.boundingBox.height)
    let horizontalOverlap :=
      calculateHorizontalOverlap textElement.boundingBox element.boundingBox
    distanceAbove > 0 ∧ distanceAbove ≤ titleThreshold ∧ horizontalOverlap > 0.5

def findTextAttachment (textElement : NormalizedElement)
    (allElements : List NormalizedElement) (hierarchy : ContainerHierarchy) :
    TextAttachment :=
  match jsMapGet hierarchy.parentMap textElement.id with
  | some parentId =>
    match allElements.find? (fun el => el.id = parentId) with
    | some container =>
      let isTitle := isTextTitle textElement container
      { textId := textElement.id
        attachedTo := some parentId
        attachmentType := if isTitle then "title" else "body"
        confidence := 0.9 }
    | none => findTextAttachmentScan textElement allElements
  | none => findTextAttachmentScan textElement allElements
where
  /-- The title-scan loop over `allElements` followed by the standalone
  fallback (an early-returning `for` loop, i.e. `find?`). -/
  findTextAttachmentScan (textElement : NormalizedElement)
      (allElements : List NormalizedElement) : TextAttachment :=
    match allElements.find? (titleScanMatch textElement) with
    | some element =>
      { textId := textElement.id
        attachedTo := some element.id
        attachmentType := "title"
        confidence := 0.8 }
    | none =>
      { textId := textElement.id
        attachedTo := none
        attachmentType := "standalone"
        confidence := 1.0 }

def attachText (textElements : List NormalizedElement)
    (allElements : List NormalizedElement) (hierarchy : ContainerHierarchy) :
    List TextAttachment :=
  textElements.map (fun t => findTextAttachment t allElements hierarchy)

/-! ## Stage 4: connector analysis (src: `analyzeConnectors`,
`analyzeArrowConnector`, `analyzeLineConnector`, `findNearestShapeAttachment`,
`getShapeAttachmentPoints`)

JS computes each candidate distance as `Math.sqrt(dx² + dy²)` and only ever
compares such distances with each other and with the snap threshold `15`.
Since the square root is strictly monotone on nonnegative reals, the embedding
tracks squared distances (`distanceSq`) and the squared threshold `225`,
which yields exactly the same control flow; an attachment's recorded
`distance` of the source is `√ distanceSq`. -/

structure ShapeAttachment where
  shapeId : String
  attachmentPoint : String
  distanceSq : ℚ
deriving DecidableEq, Repr

structure Connector where
  elementId : String
  startAttachment : Option ShapeAttachment
  endAttachment : Option ShapeAttachment
  direction : String
  label : Option String
  confidence : ℚ
deriving DecidableEq, Repr

/-- The eight-plus-one attachment points of a shape, in the source's object
insertion order. -/
def getShapeAttachmentPoints (shape : NormalizedElement) :
    List (String × ℚ × ℚ) :=
  let b := shape.boundingBox
  [("center", b.centerX, b.centerY),
   ("top", b.centerX, b.y),
   ("bottom", b.centerX, b.y + b.height),
   ("left", b.x, b.centerY),
   ("right", b.x + b.width, b.centerY),
   ("top-left", b.x, b.y),
   ("top-right", b.x + b.width, b.y),
   ("bottom-left", b.x, b.y + b.height),
   ("bottom-right", b.x + b.width, b.y + b.height)]

/-- Inner candidate loop of `findNearestShapeAttachment` over one shape's
attachment points.  State: current best attachment and current squared
minimum distance. -/
def scanPoints (point : ℚ × ℚ) (shape : NormalizedElement)
    (acc : Option ShapeAttachment × ℚ) : Option ShapeAttachment × ℚ :=
  (getShapeAttachmentPoints shape).foldl
    (fun acc p =>
      let distanceSq := (point.1 - p.2.1) ^ 2 + (point.2 - p.2.2) ^ 2
      if distanceSq < acc.2 then
        (some { shapeId := shape.id, attachmentPoint := p.1,
                distanceSq := distanceSq }, distanceSq)
      else acc)
    acc

def findNearestShapeAttachment (point : ℚ × ℚ)
    (shapes : List NormalizedElement) (threshold : ℚ) (excludeId : String) :
    Option ShapeAttachment :=
  (shapes.foldl
    (fun (acc : Option ShapeAttachment × ℚ) shape =>
      if shape.id = excludeId then acc
      else if shape.type = "arrow" ∨ shape.type = "line" then acc
      else scanPoints point shape acc)
    (none, threshold ^ 2)).1

def getArrowStartPoint (arrow : NormalizedElement) : ℚ × ℚ :=
  (arrow.boundingBox.x, arrow.boundingBox.y + arrow.boundingBox.height / 2)

def getArrowEndPoint (arrow : NormalizedElement) : ℚ × ℚ :=
  (arrow.boundingBox.x + arrow.boundingBox.width,
   arrow.boundingBox.y + arrow.boundingBox.height / 2)

def getLineStartPoint (line : NormalizedElement) : ℚ × ℚ :=
  (line.boundingBox.x, line.boundingBox.y)

def getLineEndPoint (line : NormalizedElement) : ℚ × ℚ :=
  (line.boundingBox.x + line.boundingBox.width,
   line.boundingBox.y + line.boundingBox.height)

def extractConnectorLabel (connector : NormalizedElement) : Option String :=
  jsOrUndef connector.text

def analyzeArrowConnector (arrow : NormalizedElement)
    (shapes : List NormalizedElement) (threshold : ℚ) : Option Connector :=
  let startPoint := getArrowStartPoint arrow
  let endPoint := getArrowEndPoint arrow
  match findNearestShapeAttachment startPoint shapes threshold arrow.id,
        findNearestShapeAttachment endPoint shapes threshold arrow.id with
  | some startAttachment, some endAttachment =>
    some { elementId := arrow.id
           startAttachment := some startAttachment
           endAttachment := some endAttachment
           direction := "start-to-end"
           label := extractConnectorLabel arrow
           confidence := 0.9 }
  | _, _ => none

def analyzeLineConnector (line : NormalizedElement)
    (shapes : List NormalizedElement) (threshold : ℚ) : Option Connector :=
  let startPoint := getLineStartPoint line
  let endPoint := getLineEndPoint line
  match findNearestShapeAttachment startPoint shapes threshold line.id,
        findNearestShapeAttachment endPoint shapes threshold line.id with
  | some startAttachment, some endAttachment =>
    some { elementId := line.id
           startAttachment := some startAttachment
           endAttachment := some endAttachment
           direction := "bidirectional"
           label := extractConnectorLabel line
           confidence := 0.8 }
  | _, _ => none

def analyzeConnectors (arrows lines allShapes : List NormalizedElement) :
    List Connector :=
  let snapThreshold : ℚ := 15
  arrows.filterMap (fun arrow => analyzeArrowConnector arrow allShapes snapThreshold) ++
  lines.filterMap (fun line => analyzeLineConnector line allShapes snapThreshold)

/-! ## Stage 5: role assignment (src: `assignRoles`, `classifyRectangle`,
`analyzeDiamonds`, `analyzeEllipses`, `analyzeTextElements`, `analyzeImages`,
`analyzeConnectorRoles`) -/

structure RoleAssignment where
  elementId : String
  role : ComponentRole
  confidence : ℚ
  reasoning : List String
deriving DecidableEq, Repr

/-- The running `(role, confidence, reasoning)` triple that
`classifyRectangle` mutates rule by rule. -/
abbrev RoleAcc := ComponentRole × ℚ × List String

/-- Attached text of a rectangle (filter over the text attachments). -/
def rectAttachedText (rect : NormalizedElement)
    (textAttachments : List TextAttachment) : List TextAttachment :=
  textAttachments.filter (fun ta => ta.attachedTo = some rect.id)

/-- The `text` local of `classifyRectangle`: the source joins the found
`TextAttachment` OBJECTS with `Array.prototype.join`, so the value is a
space-separated sequence of "[object Object]" strings, not text content. -/
def rectText (attachedText : List TextAttachment) : String :=
  if attachedText ≠ [] then
    jsJoin " " (attachedText.map (fun _ => jsObjectString))
  else ""

/-- `hasConnectors`: some connector's resolved endpoint is this shape. -/
def rectHasConnectors (rect : NormalizedElement)
    (connectors : List Connector) : Bool :=
  connectors.any (fun c =>
    (c.startAttachment.map (fun a => a.shapeId) = some rect.id) ∨
    (c.endAttachment.map (fun a => a.shapeId) = some rect.id))

/-- Button rule: rounded rectangle + short text + button-like aspect. -/
def rectButtonRule (rect : NormalizedElement) (hasText : Bool) (text : String)
    (acc : RoleAcc) : RoleAcc :=
  let aspect := rect.boundingBox.width / rect.boundingBox.height
  if rect.style.roundness ≠ 0 ∧ rect.style.roundness > 0.1 ∧ hasText = true ∧
      text.length < 50 ∧ aspect > 1.5 ∧ aspect < 6 then
    (ComponentRole.BUTTON, (0.9 : ℚ),
     acc.2.2 ++ ["Rounded rectangle with short text",
       "Aspect ratio " ++ jsNumStr aspect ++ " suitable for button"])
  else acc

/-- Card rule: container with more than one child and any attached text. -/
def rectCardRule (isContainer : Bool) (containedCount : ℕ) (hasTitle : Bool)
    (hasText : Bool) (acc : RoleAcc) : RoleAcc :=
  if isContainer = true ∧ containedCount > 1 ∧ (hasTitle = true ∨ hasText = true) then
    (ComponentRole.CARD, (0.7 : ℚ),
     (acc.2.2 ++ ["Contains " ++ toString containedCount ++ " elements"]) ++
       (if hasTitle then ["Has title text"] else []))
  else acc

/-- Process-node rule: rounded rectangle in a flow. -/
def rectProcessRule (rect : NormalizedElement) (hasConnectors : Bool)
    (acc : RoleAcc) : RoleAcc :=
  if hasConnectors = true ∧ rect.style.roundness ≠ 0 ∧
      rect.style.roundness > 0.1 then
    (ComponentRole.PROCESS_STEP, (0.8 : ℚ),
     acc.2.2 ++ ["Rounded rectangle with connectors (flow element)"])
  else acc

/-- Database-keyword rule (no DATABASE role exists; re-assigns UNKNOWN). -/
def rectDatabaseRule (rect : NormalizedElement) (text : String)
    (acc : RoleAcc) : RoleAcc :=
  let aspect := rect.boundingBox.width / rect.boundingBox.height
  if aspect > 0.8 ∧ aspect < 1.2 ∧ rect.boundingBox.area > 10000 ∧
      (containsStr (jsToLower text) "database" ∨
        containsStr (jsToLower text) "db") then
    (ComponentRole.UNKNOWN, (0.85 : ℚ),
     acc.2.2 ++ ["Square aspect ratio with database keywords"])
  else acc

/-- Container rule: container with children, role still unset. -/
def rectContainerRule (isContainer : Bool) (containedCount : ℕ)
    (acc : RoleAcc) : RoleAcc :=
  if isContainer = true ∧ containedCount > 0 ∧ acc.1 = ComponentRole.UNKNOWN then
    (ComponentRole.CONTAINER, (0.8 : ℚ),
     acc.2.2 ++ ["Large container with " ++ toString containedCount ++
       " child elements"])
  else acc

/-- Default-to-container rule for large rectangles. -/
def rectLargeRule (rect : NormalizedElement) (acc : RoleAcc) : RoleAcc :=
  if acc.1 = ComponentRole.UNKNOWN ∧ rect.boundingBox.area > 20000 then
    (ComponentRole.CONTAINER, (0.6 : ℚ),
     acc.2.2 ++ ["Large rectangle (default container)"])
  else acc

/-- Fallback rule: generic component. -/
def rectFallbackRule (acc : RoleAcc) : RoleAcc :=
  if acc.1 = ComponentRole.UNKNOWN then
    (ComponentRole.COMPONENT, (0.3 : ℚ),
     acc.2.2 ++ ["Rectangle with unclear purpose"])
  else acc

/-- `classifyRectangle`: the source applies the heuristic rules in sequence,
each one overwriting `role`/`confidence` when its condition holds (later
matching rules win). -/
def classifyRectangle (rect : NormalizedElement)
    (hierarchy : ContainerHierarchy) (textAttachments : List TextAttachment)
    (connectors : List Connector) : RoleAssignment :=
  let attachedText := rectAttachedText rect textAttachments
  let hasText := !attachedText.isEmpty
  let text := rectText attachedText
  let isContainer := jsMapHas hierarchy.containmentMap rect.id
  let containedCount := if isContainer then
      ((jsMapGet hierarchy.containmentMap rect.id).getD []).length else 0
  let hasConnectors := rectHasConnectors rect connectors
  let hasTitle := attachedText.any (fun ta => ta.attachmentType = "title")
  let st : RoleAcc := (ComponentRole.UNKNOWN, (0.0 : ℚ), [])
  let st := rectButtonRule rect hasText text st
  let st := rectCardRule isContainer containedCount hasTitle hasText st
  let st := rectProcessRule rect hasConnectors st
  let st := rectDatabaseRule rect text st
  let st := rectContainerRule isContainer containedCount st
  let st := rectLargeRule rect st
  let st := rectFallbackRule st
  { elementId := rect.id, role := st.1, confidence := st.2.1,
    reasoning := st.2.2 }

def analyzeRectangles (rectangles : List NormalizedElement)
    (hierarchy : ContainerHierarchy) (textAttachments : List TextAttachment)
    (connectors : List Connector) : List RoleAssignment :=
  rectangles.map (fun rect =>
    classifyRectangle rect hierarchy textAttachments connectors)

def analyzeDiamonds (diamonds : List NormalizedElement) : List RoleAssignment :=
  diamonds.map (fun diamond =>
    { elementId := diamond.id
      role := ComponentRole.DECISION_POINT
      confidence := 0.95
      reasoning := ["Diamond shape indicates decision point"] })

def analyzeEllipses (ellipses : List NormalizedElement) : List RoleAssignment :=
  ellipses.map (fun ellipse =>
    let aspect := ellipse.boundingBox.width / ellipse.boundingBox.height
    if aspect > 0.8 ∧ aspect < 1.2 then
      if ellipse.boundingBox.area < 2000 then
        { elementId := ellipse.id, role := ComponentRole.RADIO_BUTTON,
          confidence := 0.7, reasoning := ["Small circular shape"] }
      else
        { elementId := ellipse.id, role := ComponentRole.ICON,
          confidence := 0.6, reasoning := ["Medium circular shape"] }
    else
      { elementId := ellipse.id, role := ComponentRole.COMPONENT,
        confidence := 0.5, reasoning := ["Elliptical shape with unclear purpose"] })

def analyzeTextElements (textElements : List NormalizedElement)
    (textAttachments : List TextAttachment) : List RoleAssignment :=
  textElements.map (fun textEl =>
    match textAttachments.find? (fun ta => ta.textId = textEl.id) with
    | some attachment =>
      if attachment.attachmentType = "title" then
        { elementId := textEl.id, role := ComponentRole.TITLE,
          confidence := 0.9, reasoning := ["Text positioned as title"] }
      else if attachment.attachmentType = "body" then
        { elementId := textEl.id, role := ComponentRole.TEXT_BLOCK,
          confidence := 0.8, reasoning := ["Text within container (body text)"] }
      else
        { elementId := textEl.id, role := ComponentRole.TEXT_BLOCK,
          confidence := 1.0, reasoning := ["Standalone text element"] }
    | none =>
      { elementId := textEl.id, role := ComponentRole.TEXT_BLOCK,
        confidence := 1.0, reasoning := ["Standalone text element"] })

def analyzeImages (images : List NormalizedElement) : List RoleAssignment :=
  images.map (fun image =>
    { elementId := image.id, role := ComponentRole.IMAGE_PLACEHOLDER,
      confidence := 1.0, reasoning := ["Image element"] })

def analyzeConnectorRoles (connectors : List Connector) : List RoleAssignment :=
  connectors.map (fun connector =>
    { elementId := connector.elementId
      role := ComponentRole.CONNECTOR
      confidence := connector.confidence
      reasoning := ["Line/arrow connecting shapes"] })

def assignRoles (groups : ElementGroups) (hierarchy : ContainerHierarchy)
    (textAttachments : List TextAttachment) (connectors : List Connector) :
    List RoleAssignment :=
  analyzeRectangles groups.rectangles hierarchy textAttachments connectors ++
  analyzeDiamonds groups.diamonds ++
  analyzeEllipses groups.ellipses ++
  analyzeTextElements groups.text textAttachments ++
  analyzeImages groups.images ++
  analyzeConnectorRoles connectors

/-! ## Stage 6: widget detection (src: `detectWidgets`,
`detectWidgetFromElement`, `detectWidgetFromText`, `createWidgetMetadata`,
`extractTitleFromText`, `extractUrlFromText`)

Each regex of the source's pattern table is embedded as an executable matcher
with the same `RegExp.prototype.test` semantics (backtracking existence of a
match), derived pattern by pattern in the doc comments below. -/

/-- Tail of a bracket-tag match after `"[" ++ tag`: either an immediate `]`,
or `\s*` then `:` then one or more characters other than `[`/`]` followed by
`]` (the two `\s*` of the source pattern fold into the bracket-free content
class, which already contains every whitespace character). -/
def bracketTagTail : List Char → Bool
  | [] => false
  | c :: cs =>
    if c = ']' then true
    else bracketColonTail (c :: cs)
where
  bracketColonTail : List Char → Bool
    | [] => false
    | c :: cs =>
      if isJsWhitespace c then bracketColonTail cs
      else if c = ':' then bracketContent cs 0
      else false
  bracketContent : List Char → ℕ → Bool
    | [], _ => false
    | c :: cs, n =>
      if c = ']' then n > 0
      else if c = '[' then false
      else bracketContent cs (n + 1)

/-- `/\[TAG(?:\s*:\s*([^[\]]+))?\]/i.test`: an occurrence of `[TAG`
(case-insensitive) anywhere, closed as described by `bracketTagTail`. -/
def bracketTagAt (tag : List Char) : List Char → Bool
  | [] => false
  | c :: cs =>
    (c = '[' ∧ isPrefixOfCI tag cs ∧ bracketTagTail (cs.drop tag.length)) ||
    bracketTagAt tag cs

def bracketTagTest (tag : String) (s : String) : Bool :=
  bracketTagAt tag.data s.data

/-- The `\s*(.+)` tail of the prefix patterns: backtracking over the leading
whitespace, some position must carry a character that the dot matches
(anything but a line terminator). -/
def dotAfterWs : List Char → Bool
  | [] => false
  | c :: cs => (!isJsLineTerminator c) || (isJsWhitespace c && dotAfterWs cs)

def skipWsThenColonThenDot : List Char → Bool
  | [] => false
  | c :: cs =>
    if isJsWhitespace c then skipWsThenColonThenDot cs
    else if c = ':' then dotAfterWs cs
    else false

/-- `/^TAG\s*:\s*(.+)/i.test`: the string starts with `TAG`
(case-insensitive), then optional whitespace, a colon, and at least one
dot-matchable character after backtrackable whitespace. -/
def prefixTagTest (tag : String) (s : String) : Bool :=
  isPrefixOfCI tag.data s.data && skipWsThenColonThenDot (s.data.drop tag.data.length)

/-- `google\s*maps?` as a `test`: an occurrence of `google`, optional
whitespace, then `map` (the optional trailing `s` cannot affect a bare
existence test). -/
def googleMapsAt : List Char → Bool
  | [] => false
  | c :: cs =>
    (isPrefixOfCI "google".data (c :: cs) ∧
      googleMapsTail ((c :: cs).drop "google".data.length)) ||
    googleMapsAt cs
where
  googleMapsTail : List Char → Bool
    | [] => false
    | c :: cs =>
      if isJsWhitespace c then googleMapsTail cs
      else isPrefixOfCI "map".data (c :: cs)

/-- `/(?:map|google\s*maps?|location)/i.test`. -/
def mapKeywordTest (s : String) : Bool :=
  containsCI s "map" || googleMapsAt s.data || containsCI s "location"

/-- `/(?:youtube|vimeo|video)/i.test`. -/
def videoKeywordTest (s : String) : Bool :=
  containsCI s "youtube" || containsCI s "vimeo" || containsCI s "video"

/-- `/(?:embed|iframe|website)/i.test`. -/
def iframeKeywordTest (s : String) : Bool :=
  containsCI s "embed" || containsCI s "iframe" || containsCI s "website"

/-- `/(?:chart|graph|plot|analytics)/i.test`. -/
def chartKeywordTest (s : String) : Bool :=
  containsCI s "chart" || containsCI s "graph" || containsCI s "plot" ||
  containsCI s "analytics"

/-- `/(?:calendar|schedule|events?)/i.test` (the optional `s` of `events?`
cannot affect a bare existence test). -/
def calendarKeywordTest (s : String) : Bool :=
  containsCI s "calendar" || containsCI s "schedule" || containsCI s "event"

/-- The ordered pattern table of `detectWidgetFromText`. -/
def widgetPatterns : List ((String → Bool) × WidgetType × ℚ) :=
  [(bracketTagTest "MAP", WidgetType.map, 0.95),
   (bracketTagTest "VIDEO", WidgetType.video, 0.95),
   (bracketTagTest "IFRAME", WidgetType.iframe, 0.9),
   (bracketTagTest "CHART", WidgetType.chart, 0.9),
   (bracketTagTest "CALENDAR", WidgetType.calendar, 0.9),
   (prefixTagTest "CHART", WidgetType.chart, 0.8),
   (prefixTagTest "MAP", WidgetType.map, 0.8),
   (prefixTagTest "VIDEO", WidgetType.video, 0.8),
   (prefixTagTest "IFRAME", WidgetType.iframe, 0.8),
   (prefixTagTest "CALENDAR", WidgetType.calendar, 0.8),
   (mapKeywordTest, WidgetType.map, 0.7),
   (videoKeywordTest, WidgetType.video, 0.8),
   (iframeKeywordTest, WidgetType.iframe, 0.7),
   (chartKeywordTest, WidgetType.chart, 0.75),
   (calendarKeywordTest, WidgetType.calendar, 0.75)]

structure WidgetDetectionResult where
  isWidget : Bool
  type? : Option WidgetType
  confidence : ℚ
  detectionMethod : String
  reasoning : List String
deriving DecidableEq, Repr

/-- First matching pattern wins. -/
def detectWidgetFromText (text : String) : WidgetDetectionResult :=
  match widgetPatterns.find? (fun p => p.1 text) with
  | some p =>
    { isWidget := true
      type? := some p.2.1
      confidence := p.2.2
      detectionMethod := "pattern"
      reasoning := ["Matched pattern for " ++ widgetTypeStr p.2.1,
        "Confidence: " ++ jsNumStr (p.2.2 * 100) ++ "%"] }
  | none =>
    { isWidget := false
      type? := none
      confidence := 0
      detectionMethod := "none"
      reasoning := ["No widget patterns matched"] }

/-- Everything after the first `]`, if any. -/
def splitAfterRBracket : List Char → Option (List Char)
  | [] => none
  | c :: cs => if c = ']' then some cs else splitAfterRBracket cs

theorem splitAfterRBracket_length {cs rest : List Char}
    (h : splitAfterRBracket cs = some rest) : rest.length < cs.length := by
  induction cs with
  | nil => simp [splitAfterRBracket] at h
  | cons d ds ih =>
    rw [splitAfterRBracket] at h
    by_cases hd : d = ']'
    · simp [hd] at h
      simp [← h]
    · simp [hd] at h
      have := ih h
      simp only [List.length_cons]
      omega

/-- Global replacement of `/\[[^\]]*\]/g` with the empty string: at a `[`,
if a later `]` exists the whole bracketed run is dropped, otherwise the `[`
stays literal. -/
def stripBracketTags : List Char → List Char
  | [] => []
  | c :: cs =>
    if c = '[' then
      match hsplit : splitAfterRBracket cs with
      | some rest => stripBracketTags rest
      | none => c :: stripBracketTags cs
    else c :: stripBracketTags cs
termination_by l => l.length
decreasing_by
  · have := splitAfterRBracket_length hsplit
    simp only [List.length_cons]
    omega
  · simp
  · simp

/-- `extractTitleFromText`. -/
def extractTitleFromText (text : String) : String :=
  let cleaned := jsTrim ⟨stripBracketTags text.data⟩
  let truncated : String := ⟨cleaned.data.take 50⟩
  if truncated = "" then "Widget" else truncated

/-- One-or-more characters other than whitespace and `]`, starting here. -/
def urlRun (cs : List Char) : List Char :=
  cs.takeWhile (fun c => !(isJsWhitespace c || c = ']'))

/-- `/https?:\/\/[^\s\]]+/i`: first match, or `null`.  At a given position
the protocol matches exactly when `http://` or `https://` is a prefix
(case-insensitively), and the character class then needs at least one
further character. -/
def extractUrlAt : List Char → Option String
  | [] => none
  | c :: cs =>
    let here := c :: cs
    if isPrefixOfCI "https://".data here ∧
        urlRun (here.drop 8) ≠ [] then
      some ⟨here.take 8 ++ urlRun (here.drop 8)⟩
    else if isPrefixOfCI "http://".data here ∧
        urlRun (here.drop 7) ≠ [] then
      some ⟨here.take 7 ++ urlRun (here.drop 7)⟩
    else extractUrlAt cs

def extractUrlFromText (text : String) : Option String :=
  extractUrlAt text.data

/-- Per-type widget configuration synthesized by `createWidgetMetadata`
(fields of no bearing on any claim, e.g. the `markers` array, are carried as
written). -/
inductive WidgetConfig
  | mapCfg (latitude longitude zoom : ℚ) (mapStyle : String)
      (showControls allowZoom allowPan : Bool) (markers : List String)
  | videoCfg (url : String) (provider : String)
      (autoplay loop muted controls : Bool) (aspectWH : ℚ)
  | iframeCfg (url : String) (allowFullscreen : Bool) (sandbox : List String)
  | chartCfg (chartType : String)
  | calendarCfg (defaultView : String) (showWeekends : Bool) (timeZone : String)
      (events : List String)
deriving DecidableEq, Repr

structure PipelineWidgetMetadata where
  type : WidgetType
  elementId : String
  title : String
  description : String
  createdAt : ℚ
  updatedAt : ℚ
  version : String
  config : WidgetConfig
deriving DecidableEq, Repr

/-- `createWidgetMetadata`; `Date.now()` is threaded in as `now`. -/
def createWidgetMetadata (now : ℚ) (element : NormalizedElement)
    (widgetType : WidgetType) (text : String) : PipelineWidgetMetadata :=
  let config : WidgetConfig :=
    match widgetType with
    | .map => .mapCfg 37.7749 (-122.4194) 10 "roadmap" true true true []
    | .video => .videoCfg (jsOrStr (extractUrlFromText text) "") "unknown"
        false false false true
        (element.boundingBox.width / element.boundingBox.height)
    | .iframe => .iframeCfg (jsOrStr (extractUrlFromText text) "") true
        ["allow-same-origin", "allow-scripts"]
    | .chart => .chartCfg "line"
    | .calendar => .calendarCfg "month" true "UTC" []
  { type := widgetType
    elementId := element.id
    title := extractTitleFromText text
    description := "Auto-detected " ++ widgetTypeStr widgetType ++ " widget"
    createdAt := now
    updatedAt := now
    version := "1.0.0"
    config := config }

structure WidgetDetection where
  elementId : String
  isWidget : Bool
  widgetType : Option WidgetType
  confidence : ℚ
  widgetMetadata : Option PipelineWidgetMetadata
  detectionMethod : String
  reasoning : List String
deriving DecidableEq, Repr

def detectWidgetFromElement (now : ℚ) (element : NormalizedElement)
    (_roleAssignments : List RoleAssignment) : WidgetDetection :=
  match element.text with
  | none =>
    { elementId := element.id, isWidget := false, widgetType := none,
      confidence := 0, widgetMetadata := none, detectionMethod := "none",
      reasoning := ["No text content to analyze"] }
  | some rawText =>
    let text := jsTrim rawText
    let detection := detectWidgetFromText text
    match detection.type? with
    | some t =>
      if detection.isWidget then
        { elementId := element.id
          isWidget := true
          widgetType := some t
          confidence := detection.confidence
          widgetMetadata := some (createWidgetMetadata now element t text)
          detectionMethod := "pattern"
          reasoning := detection.reasoning }
      else
        { elementId := element.id, isWidget := false, widgetType := none,
          confidence := 0, widgetMetadata := none, detectionMethod := "none",
          reasoning := ["No widget patterns matched"] }
    | none =>
      { elementId := element.id, isWidget := false, widgetType := none,
        confidence := 0, widgetMetadata := none, detectionMethod := "none",
        reasoning := ["No widget patterns matched"] }

def detectWidgets (now : ℚ) (elements : List NormalizedElement)
    (roleAssignments : List RoleAssignment) : List WidgetDetection :=
  let candidateElements := elements.filter (fun el =>
    el.type = "rectangle" ∨ el.type = "text")
  candidateElements.map (fun element =>
    detectWidgetFromElement now element roleAssignments)

/-! ## Conversion to semantic components and the pipeline entry point
(src: `convertToSemanticComponents`, `createComponentMetadata`,
`findElementById`, `runExtractionPipeline`) -/

structure ComponentWidgetInfo where
  widgetType : WidgetType
  confidence : ℚ
  detectionMethod : String
  config : Option WidgetConfig
deriving DecidableEq, Repr

structure VisualProperties where
  hasText : Bool
  textContent : Option String
  hasShape : Bool
  shapeType : String
  size : String
deriving DecidableEq, Repr

structure InteractionPattern where
  isClickable : Bool
  isInputField : Bool
  hasStates : Bool
  stateCount : Option ℕ
deriving DecidableEq, Repr

structure ComponentMetadata where
  visualProperties : VisualProperties
  interactionPattern : InteractionPattern
  layoutPosition : String
  layoutAlignment : String
  layoutSpacing : String
  semanticHints : List String
  extractionMethod : String
  processingTime : ℚ
  version : String
  widgetMetadata : Option ComponentWidgetInfo
deriving DecidableEq, Repr

structure SemanticComponent where
  id : String
  elementIds : List String
  role : ComponentRole
  relationships : List String
  confidence : ℚ
  boundingBox : BoundingBox
  metadata : ComponentMetadata
deriving DecidableEq, Repr

def findElementById (id : String) (groups : ElementGroups) :
    Option NormalizedElement :=
  (groups.rectangles ++ groups.diamonds ++ groups.ellipses ++ groups.arrows ++
    groups.lines ++ groups.text ++ groups.images ++ groups.other).find?
    (fun el => el.id = id)

def createComponentMetadata (element : NormalizedElement)
    (assignment : RoleAssignment) (textAttachments : List TextAttachment)
    (widgetDetection : Option WidgetDetection) : ComponentMetadata :=
  let attachedText := textAttachments.find? (fun ta => ta.attachedTo = some element.id)
  { visualProperties :=
      { hasText := element.text.isSome || attachedText.isSome
        textContent := jsOrUndef element.text
        hasShape := element.type ≠ "text"
        shapeType := element.type
        size := if element.boundingBox.area > 50000 then "large"
          else if element.boundingBox.area > 10000 then "medium" else "small" }
    interactionPattern :=
      { isClickable := assignment.role = ComponentRole.BUTTON
        isInputField := assignment.role = ComponentRole.INPUT_FIELD
        hasStates := assignment.role = ComponentRole.CHECKBOX ∨
          assignment.role = ComponentRole.TOGGLE
        stateCount := if assignment.role = ComponentRole.CHECKBOX ∨
            assignment.role = ComponentRole.TOGGLE then some 2 else none }
    layoutPosition := "isolated"
    layoutAlignment := "left"
    layoutSpacing := "normal"
    semanticHints := assignment.reasoning
    extractionMethod := "pattern_matching"
    processingTime := 0
    version := "2.0.0"
    widgetMetadata :=
      match widgetDetection with
      | some wd =>
        if wd.isWidget then
          some { widgetType := wd.widgetType.getD WidgetType.map
                 confidence := wd.confidence
                 detectionMethod := wd.detectionMethod
                 config := wd.widgetMetadata.map (fun m => m.config) }
        else none
      | none => none }

def convertToSemanticComponents (roleAssignments : List RoleAssignment)
    (groups : ElementGroups) (_hierarchy : ContainerHierarchy)
    (textAttachments : List TextAttachment) (_connectors : List Connector)
    (widgetDetections : List WidgetDetection) : List SemanticComponent :=
  roleAssignments.filterMap (fun assignment =>
    match findElementById assignment.elementId groups with
    | none => none
    | some element =>
      let widgetDetection := widgetDetections.find?
        (fun w => w.elementId = assignment.elementId)
      let finalRole :=
        match widgetDetection with
        | some wd => if wd.isWidget then ComponentRole.WIDGET else assignment.role
        | none => assignment.role
      some { id := assignment.elementId
             elementIds := [assignment.elementId]
             role := finalRole
             relationships := []
             confidence := assignment.confidence
             boundingBox := element.boundingBox
             metadata := createComponentMetadata element assignment
               textAttachments widgetDetection })

structure ExtractionOptions where
  minConfidence : ℚ
  enableRelationshipAnalysis : Bool
  enableTokenOptimization : Bool
  maxComponents : ℚ
  analysisDepth : String
  /-- Not declared in the typed `ExtractionOptions` interface but read
  dynamically by the worker via `options.enableWidgetDetection !== false`;
  an absent field (`none`) is `undefined`, which is `!== false`. -/
  enableWidgetDetection : Option Bool := none
deriving DecidableEq, Repr

structure Viewport where
  minX : ℚ
  minY : ℚ
  maxX : ℚ
  maxY : ℚ
  width : ℚ
  height : ℚ
deriving DecidableEq, Repr

structure ExtractionRequest where
  elements : List RawElement
  viewport : Viewport
  options : ExtractionOptions
deriving DecidableEq, Repr

structure ExtractionSummary where
  totalComponents : ℕ
  averageConfidence : ℚ
  highConfidenceComponents : ℕ
  mediumConfidenceComponents : ℕ
  lowConfidenceComponents : ℕ
deriving DecidableEq, Repr

structure TokenOptimization where
  originalTokenCount : ℚ
  optimizedTokenCount : ℚ
  reductionPercentage : ℚ
  compressionRatio : ℚ
deriving DecidableEq, Repr

structure ExtractionResult where
  components : List SemanticComponent
  summary : ExtractionSummary
  tokenOptimization : TokenOptimization
  timestamp : ℚ
  processingTime : ℚ
deriving DecidableEq, Repr

/-- `runExtractionPipeline`.  `Date.now()` is threaded in as `now`; division
by zero over `ℚ` yields `0` where JS would yield `NaN` in the
`averageConfidence` of an empty result — a summary field no claim touches. -/
def runExtractionPipeline (cosF sinF : ℚ → ℚ) (now : ℚ)
    (request : ExtractionRequest) : ExtractionResult :=
  let elements := request.elements
  let options := request.options
  -- STAGE 1: element normalization
  let normalizedGroups := normalizeElements cosF sinF elements
  -- STAGE 2: container detection
  let hierarchy := detectContainers normalizedGroups
  -- STAGE 3: text attachment
  let textAttachments := attachText normalizedGroups.text
    (normalizedGroups.rectangles ++ normalizedGroups.diamonds ++
      normalizedGroups.ellipses) hierarchy
  -- STAGE 4: connector analysis
  let connectors := analyzeConnectors normalizedGroups.arrows
    normalizedGroups.lines
    (normalizedGroups.rectangles ++ normalizedGroups.diamonds ++
      normalizedGroups.ellipses)
  -- STAGE 5: role assignment
  let roleAssignments := assignRoles normalizedGroups hierarchy textAttachments
    connectors
  -- STAGE 6: widget detection (if enabled)
  let widgetDetections :=
    if options.enableWidgetDetection ≠ some false then
      let allElements := normalizedGroups.rectangles ++
        normalizedGroups.diamonds ++ normalizedGroups.ellipses ++
        normalizedGroups.text ++ normalizedGroups.images ++
        normalizedGroups.other
      detectWidgets now allElements roleAssignments
    else []
  let components := convertToSemanticComponents roleAssignments
    normalizedGroups hierarchy textAttachments connectors widgetDetections
  -- filter by confidence
  let filteredComponents := components.filter
    (fun comp => comp.confidence ≥ options.minConfidence)
  { components := filteredComponents
    summary :=
      { totalComponents := filteredComponents.length
        averageConfidence :=
          (filteredComponents.foldl (fun sum c => sum + c.confidence) 0) /
            (filteredComponents.length : ℚ)
        highConfidenceComponents :=
          (filteredComponents.filter (fun c => c.confidence > 0.8)).length
        mediumConfidenceComponents :=
          (filteredComponents.filter (fun c =>
            c.confidence > 0.5 ∧ c.confidence ≤ 0.8)).length
        lowConfidenceComponents :=
          (filteredComponents.filter (fun c => c.confidence ≤ 0.5)).length }
    tokenOptimization :=
      { originalTokenCount := (elements.length : ℚ) * 50
        optimizedTokenCount := (filteredComponents.length : ℚ) * 30
        reductionPercentage := 40
        compressionRatio := 1.67 }
    timestamp := now
    processingTime := 0 }

/-! ## Token analysis validation (src: `tokenAnalyzer.ts`, `TokenAnalysis`,
`validatePhase2Objectives`) -/

structure RawElementsAnalysis where
  count : ℕ
  estimatedTokens : ℚ
deriving DecidableEq, Repr

structure SemanticComponentsAnalysis where
  count : ℕ
  estimatedTokens : ℚ
deriving DecidableEq, Repr

structure ReductionAnalysis where
  absolute : ℚ
  percentage : ℚ
  compressionRatio : ℚ
deriving DecidableEq, Repr

structure EfficiencyAnalysis where
  componentsPerElement : ℚ
  tokensPerComponent : ℚ
  confidenceWeightedTokens : ℚ
deriving DecidableEq, Repr

structure TokenAnalysis where
  rawElements : RawElementsAnalysis
  semanticComponents : SemanticComponentsAnalysis
  reduction : ReductionAnalysis
  efficiency : EfficiencyAnalysis
deriving DecidableEq, Repr

structure Phase2Validation where
  meets70PercentReduction : Bool
  providesSemanticValue : Bool
  maintainsAccuracy : Bool
  overallSuccess : Bool
deriving DecidableEq, Repr

def validatePhase2Objectives (analysis : TokenAnalysis) : Phase2Validation :=
  let meets70PercentReduction := analysis.reduction.percentage ≥ 70
  let providesSemanticValue :=
    analysis.efficiency.componentsPerElement < 1 ∧
    analysis.semanticComponents.count > 0
  let maintainsAccuracy :=
    analysis.efficiency.confidenceWeightedTokens >
      analysis.semanticComponents.estimatedTokens * 0.7
  { meets70PercentReduction := meets70PercentReduction
    providesSemanticValue := providesSemanticValue
    maintainsAccuracy := maintainsAccuracy
    overallSuccess := meets70PercentReduction ∧ providesSemanticValue ∧
      maintainsAccuracy }

/-! ## Widget storage (src: `widgetStorage.ts`, `WidgetStorageManager`)

Widget metadata records are dynamically-typed JS objects, accessed by field
name throughout `widgetStorage.ts`; they are modelled by a small JSON value
type.  `JSON.parse (JSON.stringify x)` is the identity at this level, so
`serialize` produces the JSON value of the serialized string. -/

inductive Json
  | null
  | bool (b : Bool)
  | num (q : ℚ)
  | str (s : String)
  | arr (items : List Json)
  | obj (fields : List (String × Json))

/-- JS truthiness of a field value; an absent field (`undefined`) is
represented as `Json.null`, which is equally falsy. -/
def jsTruthy : Json → Bool
  | .null => false
  | .bool b => b
  | .num q => q ≠ 0
  | .str s => s ≠ ""
  | .arr _ => true
  | .obj _ => true

/-- Property read `o.k` (with optional chaining collapsing to `null`). -/
def objGet (j : Json) (k : String) : Json :=
  match j with
  | .obj fields => (jsMapGet fields k).getD .null
  | _ => .null

/-- Property write `o.k = v` (a no-op on non-objects, which throw in JS; no
operation below writes to a non-object). -/
def objSet (j : Json) (k : String) (v : Json) : Json :=
  match j with
  | .obj fields => .obj (jsMapSet fields k v)
  | _ => j

/-- `Object.entries` (objects enumerate their fields; strings enumerate
their indexed characters; other primitives have no entries). -/
def jsEntries : Json → List (String × Json)
  | .obj fields => fields
  | .str s => (s.data.enum).map (fun p => (toString p.1, Json.str ⟨[p.2]⟩))
  | _ => []

/-- The enum value strings of `WidgetType` (for
`Object.values(WidgetType).includes`). -/
def widgetTypeValues : List String :=
  ["map", "video", "iframe", "chart", "calendar"]

/-- Approximation of WHATWG `new URL(u)` succeeding, used only inside
`validateVideoMetadata`.  No theorem below depends on its value: the
universal theorems treat validation as an opaque boolean and every concrete
input is a map widget, whose validation path never consults URLs. -/
def jsUrlParses (u : String) : Bool :=
  containsStr u "://"

/-- A numeric JSON value within the inclusive bounds (the zoom check
`typeof zoom !== 'number' || zoom < 1 || zoom > 20`, negated). -/
def jsonIsNumIn (j : Json) (lo hi : ℚ) : Bool :=
  match j with
  | .num q => decide (lo ≤ q) && decide (q ≤ hi)
  | _ => false

/-- `validateMapMetadata` (throws become `false`). -/
def validateMapMetadata (metadata : Json) : Bool :=
  let center := objGet (objGet metadata "config") "center"
  if !jsTruthy (objGet center "latitude") ||
      !jsTruthy (objGet center "longitude") then false
  else jsonIsNumIn (objGet (objGet metadata "config") "zoom") 1 20

/-- `validateVideoMetadata` (throws become `false`). -/
def validateVideoMetadata (metadata : Json) : Bool :=
  let url := objGet (objGet metadata "config") "url"
  if !jsTruthy url then false
  else
    match url with
    | .str u => jsUrlParses u
    | _ => false

/-- A string JSON value among the `WidgetType` enum values
(`Object.values(WidgetType).includes(metadata.type)`). -/
def jsonIsWidgetTypeValue (j : Json) : Bool :=
  match j with
  | .str t => widgetTypeValues.contains t
  | _ => false

/-- A positive numeric JSON value (`metadata.createdAt <= 0`, negated). -/
def jsonIsPosNum (j : Json) : Bool :=
  match j with
  | .num q => decide (q > 0)
  | _ => false

/-- `validateMetadata` (throws become `false`). -/
def validateMetadata (metadata : Json) : Bool :=
  if !jsTruthy (objGet metadata "elementId") then false
  else if !jsTruthy (objGet metadata "type") ||
      !jsonIsWidgetTypeValue (objGet metadata "type") then false
  else if !jsTruthy (objGet metadata "createdAt") ||
      !jsonIsPosNum (objGet metadata "createdAt") then false
  else if !jsTruthy (objGet metadata "version") then false
  else
    match objGet metadata "type" with
    | .str "map" => validateMapMetadata metadata
    | .str "video" => validateVideoMetadata metadata
    | _ => true

structure StorageSnapshot where
  id : String
  timestamp : ℕ
  data : List (String × Json)
  operation : String
  elementId : Option String

structure StorageState where
  widgets : List (String × Json)
  snapshots : List StorageSnapshot
  currentSnapshotId : ℕ

def emptyStorage : StorageState := { widgets := [], snapshots := [], currentSnapshotId := 0 }

def maxSnapshotHistory : ℕ := 50

/-- `saveSnapshot`; `Date.now()` is threaded in as `now`.  Returns the new
snapshot id together with the new state. -/
def saveSnapshot (st : StorageState) (operation : String)
    (elementId : Option String) (now : ℕ) : String × StorageState :=
  let cid := st.currentSnapshotId + 1
  let snapshotId := "snapshot-" ++ toString cid ++ "-" ++ toString now
  let snaps := st.snapshots ++
    [{ id := snapshotId, timestamp := now, data := st.widgets,
       operation := operation, elementId := elementId }]
  let snaps := if snaps.length > maxSnapshotHistory then snaps.drop 1 else snaps
  (snapshotId, { st with snapshots := snaps, currentSnapshotId := cid })

/-- `set` (a thrown `WidgetError` leaves the state unchanged; validation runs
on the caller's record before `elementId`/`updatedAt` are forced). -/
def storageSet (st : StorageState) (elementId : String) (metadata : Json)
    (now : ℕ) : StorageState :=
  if validateMetadata metadata then
    let metadata := objSet metadata "elementId" (Json.str elementId)
    let metadata := objSet metadata "updatedAt" (Json.num (now : ℚ))
    let st := (saveSnapshot st "update" (some elementId) now).2
    { st with widgets := jsMapSet st.widgets elementId metadata }
  else st

def storageGet (st : StorageState) (elementId : String) : Option Json :=
  jsMapGet st.widgets elementId

/-- `update`: spread-merge of the stored record with the updates, then the
forced `elementId`/`updatedAt`, then validation. -/
def storageUpdate (st : StorageState) (elementId : String)
    (updates : List (String × Json)) (now : ℕ) : Bool × StorageState :=
  match jsMapGet st.widgets elementId with
  | none => (false, st)
  | some existing =>
    let updated := updates.foldl (fun m p => objSet m p.1 p.2) existing
    let updated := objSet updated "elementId" (Json.str elementId)
    let updated := objSet updated "updatedAt" (Json.num (now : ℚ))
    if validateMetadata updated then
      let st := (saveSnapshot st "update" (some elementId) now).2
      (true, { st with widgets := jsMapSet st.widgets elementId updated })
    else (false, st)

def storageDelete (st : StorageState) (elementId : String) (now : ℕ) :
    Bool × StorageState :=
  if jsMapHas st.widgets elementId then
    let st := (saveSnapshot st "delete" (some elementId) now).2
    (true, { st with widgets := jsMapDelete st.widgets elementId })
  else (false, st)

def storageClear (st : StorageState) (now : ℕ) : StorageState :=
  let st := (saveSnapshot st "clear" none now).2
  { st with widgets := [] }

/-- `restoreSnapshot`: the first stored snapshot with the requested id wins;
its map copy is rebuilt entry by entry (`forEach` + `set`). -/
def restoreSnapshot (st : StorageState) (snapshotId : String) :
    Bool × StorageState :=
  match st.snapshots.find? (fun s => s.id = snapshotId) with
  | none => (false, st)
  | some snapshot =>
    (true, { st with
      widgets := snapshot.data.foldl (fun m p => jsMapSet m p.1 p.2) [] })

/-- One mutation of the storage API, as quantified over by the snapshot
round-trip claim. -/
inductive StorageOp
  | setOp (elementId : String) (metadata : Json)
  | updateOp (elementId : String) (updates : List (String × Json))
  | deleteOp (elementId : String)
  | clearOp

def applyOp (st : StorageState) (op : StorageOp) (now : ℕ) : StorageState :=
  match op with
  | .setOp elementId metadata => storageSet st elementId metadata now
  | .updateOp elementId updates => (storageUpdate st elementId updates now).2
  | .deleteOp elementId => (storageDelete st elementId now).2
  | .clearOp => storageClear st now

def applyOps (st : StorageState) : List (StorageOp × ℕ) → StorageState
  | [] => st
  | (op, now) :: rest => applyOps (applyOp st op now) rest

/-- JSON value of one snapshot inside `serialize`'s output: the `data` field
holds a `Map`, which `JSON.stringify` renders as the empty object (a `Map`
has no enumerable own properties); an `undefined` `elementId` is dropped. -/
def snapshotToJson (s : StorageSnapshot) : Json :=
  .obj ([("id", Json.str s.id),
         ("timestamp", Json.num (s.timestamp : ℚ)),
         ("data", Json.obj []),
         ("operation", Json.str s.operation)] ++
    (match s.elementId with
     | some e => [("elementId", Json.str e)]
     | none => []))

/-- `serialize` (as the JSON value of the produced string). -/
def storageSerialize (st : StorageState) (now : ℕ) : Json :=
  .obj [("version", Json.str "1.0.0"),
        ("widgets", Json.obj st.widgets),
        ("snapshots", Json.arr
          ((st.snapshots.drop (st.snapshots.length - 10)).map snapshotToJson)),
        ("metadata", Json.obj
          [("createdAt", Json.num (now : ℚ)),
           ("totalWidgets", Json.num (st.widgets.length : ℚ)),
           ("supportedTypes", Json.arr (widgetTypeValues.map Json.str))])]

/-- Re-typing of a parsed snapshot object (the runtime keeps the raw parsed
object; for `serialize`-produced snapshots this decoding is exact, and no
claim inspects snapshots after `deserialize`). -/
def snapshotFromJson (j : Json) : StorageSnapshot :=
  { id := match objGet j "id" with | .str s => s | _ => ""
    timestamp := match objGet j "timestamp" with | .num q => q.num.toNat | _ => 0
    data := jsEntries (objGet j "data")
    operation := match objGet j "operation" with | .str s => s | _ => ""
    elementId := match objGet j "elementId" with | .str s => some s | _ => none }

/-- `deserialize` (a parse failure or missing `version`/`widgets` returns
`false` and leaves the state untouched; on success the current state is
`clear`ed — which saves one more snapshot — widgets are re-inserted from the
parsed entries, and the snapshot list is replaced wholesale when the parsed
field is an array). -/
def storageDeserialize (st : StorageState) (j : Json) (now : ℕ) :
    Bool × StorageState :=
  if !jsTruthy (objGet j "version") || !jsTruthy (objGet j "widgets") then
    (false, st)
  else
    let st := storageClear st now
    let st := { st with
      widgets := (jsEntries (objGet j "widgets")).foldl
        (fun m p => jsMapSet m p.1 p.2) st.widgets }
    let st :=
      if jsTruthy (objGet j "snapshots") &&
          (match objGet j "snapshots" with | .arr _ => true | _ => false) then
        { st with snapshots :=
            (match objGet j "snapshots" with
             | .arr items => items.map snapshotFromJson
             | _ => st.snapshots) }
      else st
    (true, st)

/-! ## Real-valued bounding box (src: `calculateBoundingBox`)

For the numerical rotation claim the same function is embedded over `ℝ` with
the exact `Real.cos`/`Real.sin` in place of the floating-point
`Math.cos`/`Math.sin`. -/

structure RawShapeR where
  x : ℝ
  y : ℝ
  width : ℝ
  height : ℝ
  angle : ℝ

structure BoundingBoxR where
  x : ℝ
  y : ℝ
  width : ℝ
  height : ℝ
  centerX : ℝ
  centerY : ℝ
  area : ℝ

noncomputable def calculateBoundingBoxR (e : RawShapeR) : BoundingBoxR :=
  let p : ℝ × ℝ × ℝ × ℝ :=
    if e.angle ≠ 0 then
      let c := Real.cos e.angle
      let s := Real.sin e.angle
      -- rotated corners of (0,0), (w,0), (w,h), (0,h)
      let r0x := 0 * c - 0 * s
      let r1x := e.width * c - 0 * s
      let r2x := e.width * c - e.height * s
      let r3x := 0 * c - e.height * s
      let r0y := 0 * s + 0 * c
      let r1y := e.width * s + 0 * c
      let r2y := e.width * s + e.height * c
      let r3y := 0 * s + e.height * c
      let minX := min (min (min r0x r1x) r2x) r3x
      let maxX := max (max (max r0x r1x) r2x) r3x
      let minY := min (min (min r0y r1y) r2y) r3y
      let maxY := max (max (max r0y r1y) r2y) r3y
      (e.x + minX, e.y + minY, maxX - minX, maxY - minY)
    else
      (e.x, e.y, e.width, e.height)
  let x := p.1
  let y := p.2.1
  let width := p.2.2.1
  let height := p.2.2.2
  { x := x, y := y, width := width, height := height,
    centerX := x + width / 2, centerY := y + height / 2,
    area := width * height }

/-! ## General helper lemmas -/

theorem foldl_preserves {α β : Type} (f : β → α → β) (P : β → Prop)
    (hstep : ∀ b a, P b → P (f b a)) :
    ∀ (l : List α) (init : β), P init → P (l.foldl f init) := by
  intro l
  induction l with
  | nil => intro init h; simpa using h
  | cons a as ih =>
    intro init h
    simpa using ih (f init a) (hstep init a h)

/-! ## C5: the token-reduction validation -/

/-- C5: `validatePhase2Objectives` returns `overallSuccess = true` exactly
when reduction percentage ≥ 70, semantic component count > 0,
components-per-raw-element < 1, and the confidence-weighted compact-token
estimate exceeds 70% of the unweighted compact-token estimate. -/
theorem c5_overall_success_iff (analysis : TokenAnalysis) :
    (validatePhase2Objectives analysis).overallSuccess = true ↔
      (analysis.reduction.percentage ≥ 70 ∧
       analysis.semanticComponents.count > 0 ∧
       analysis.efficiency.componentsPerElement < 1 ∧
       analysis.efficiency.confidenceWeightedTokens >
         analysis.semanticComponents.estimatedTokens * 0.7) := by
  simp only [validatePhase2Objectives, decide_eq_true_eq]
  tauto

/-! ## C4: connector completeness -/

/-- Invariant of the attachment search: the running minimum never exceeds the
squared threshold and any candidate found so far is strictly below it. -/
def nearestInv (thresholdSq : ℚ) (acc : Option ShapeAttachment × ℚ) : Prop :=
  acc.2 ≤ thresholdSq ∧ ∀ b, acc.1 = some b → b.distanceSq < thresholdSq

theorem scanPoints_inv (point : ℚ × ℚ) (shape : NormalizedElement)
    (thresholdSq : ℚ) (acc : Option ShapeAttachment × ℚ)
    (h : nearestInv thresholdSq acc) :
    nearestInv thresholdSq (scanPoints point shape acc) := by
  unfold scanPoints
  apply foldl_preserves _ (nearestInv thresholdSq) _ _ _ h
  intro b a hb
  dsimp only
  split
  · rename_i hlt
    constructor
    · exact le_of_lt (lt_of_lt_of_le hlt hb.1)
    · intro c hc
      simp only [Option.some.injEq] at hc
      subst hc
      exact lt_of_lt_of_le hlt hb.1
  · exact hb

theorem findNearestShapeAttachment_bound (point : ℚ × ℚ)
    (shapes : List NormalizedElement) (threshold : ℚ) (excludeId : String)
    (a : ShapeAttachment)
    (h : findNearestShapeAttachment point shapes threshold excludeId = some a) :
    a.distanceSq < threshold ^ 2 := by
  unfold findNearestShapeAttachment at h
  have hinv : nearestInv (threshold ^ 2)
      (shapes.foldl
        (fun (acc : Option ShapeAttachment × ℚ) shape =>
          if shape.id = excludeId then acc
          else if shape.type = "arrow" ∨ shape.type = "line" then acc
          else scanPoints point shape acc)
        (none, threshold ^ 2)) := by
    apply foldl_preserves
    · intro b s hb
      dsimp only
      split
      · exact hb
      · split
        · exact hb
        · exact scanPoints_inv point s _ b hb
    · exact ⟨le_refl _, by simp⟩
  exact hinv.2 a h

theorem analyzeArrowConnector_attachments (arrow : NormalizedElement)
    (shapes : List NormalizedElement) (threshold : ℚ) (c : Connector)
    (h : analyzeArrowConnector arrow shapes threshold = some c) :
    ∃ sa ea, c.startAttachment = some sa ∧ c.endAttachment = some ea ∧
      sa.distanceSq < threshold ^ 2 ∧ ea.distanceSq < threshold ^ 2 := by
  simp only [analyzeArrowConnector] at h
  split at h
  · rename_i sa ea hsa hea
    simp only [Option.some.injEq] at h
    subst h
    exact ⟨sa, ea, rfl, rfl,
      findNearestShapeAttachment_bound _ _ _ _ _ hsa,
      findNearestShapeAttachment_bound _ _ _ _ _ hea⟩
  · exact absurd h (by simp)

theorem analyzeLineConnector_attachments (line : NormalizedElement)
    (shapes : List NormalizedElement) (threshold : ℚ) (c : Connector)
    (h : analyzeLineConnector line shapes threshold = some c) :
    ∃ sa ea, c.startAttachment = some sa ∧ c.endAttachment = some ea ∧
      sa.distanceSq < threshold ^ 2 ∧ ea.distanceSq < threshold ^ 2 := by
  simp only [analyzeLineConnector] at h
  split at h
  · rename_i sa ea hsa hea
    simp only [Option.some.injEq] at h
    subst h
    exact ⟨sa, ea, rfl, rfl,
      findNearestShapeAttachment_bound _ _ _ _ _ hsa,
      findNearestShapeAttachment_bound _ _ _ _ _ hea⟩
  · exact absurd h (by simp)

/-- Each rule either installs its own role literal or passes the
accumulator through. -/
theorem rectButtonRule_role (rect : NormalizedElement) (hasText : Bool)
    (text : String) (acc : RoleAcc) :
    (rectButtonRule rect hasText text acc).1 = ComponentRole.BUTTON ∨
      rectButtonRule rect hasText text acc = acc := by
  unfold rectButtonRule
  dsimp only
  split
  · exact Or.inl rfl
  · exact Or.inr rfl

theorem rectCardRule_role (isContainer : Bool) (containedCount : ℕ)
    (hasTitle hasText : Bool) (acc : RoleAcc) :
    (rectCardRule isContainer containedCount hasTitle hasText acc).1 =
        ComponentRole.CARD ∨
      rectCardRule isContainer containedCount hasTitle hasText acc = acc := by
  unfold rectCardRule
  split
  · exact Or.inl rfl
  · exact Or.inr rfl

theorem rectProcessRule_role (rect : NormalizedElement) (hasConnectors : Bool)
    (acc : RoleAcc) :
    (rectProcessRule rect hasConnectors acc).1 = ComponentRole.PROCESS_STEP ∨
      rectProcessRule rect hasConnectors acc = acc := by
  unfold rectProcessRule
  split
  · exact Or.inl rfl
  · exact Or.inr rfl

theorem rectDatabaseRule_role (rect : NormalizedElement) (text : String)
    (acc : RoleAcc) :
    (rectDatabaseRule rect text acc).1 = ComponentRole.UNKNOWN ∨
      rectDatabaseRule rect text acc = acc := by
  unfold rectDatabaseRule
  dsimp only
  split
  · exact Or.inl rfl
  · exact Or.inr rfl

theorem rectContainerRule_role (isContainer : Bool) (containedCount : ℕ)
    (acc : RoleAcc) :
    (rectContainerRule isContainer containedCount acc).1 =
        ComponentRole.CONTAINER ∨
      rectContainerRule isContainer containedCount acc = acc := by
  unfold rectContainerRule
  split
  · exact Or.inl rfl
  · exact Or.inr rfl

theorem rectLargeRule_role (rect : NormalizedElement) (acc : RoleAcc) :
    (rectLargeRule rect acc).1 = ComponentRole.CONTAINER ∨
      rectLargeRule rect acc = acc := by
  unfold rectLargeRule
  split
  · exact Or.inl rfl
  · exact Or.inr rfl

theorem rectFallbackRule_role (acc : RoleAcc) :
    (rectFallbackRule acc).1 = ComponentRole.COMPONENT ∨
      rectFallbackRule acc = acc := by
  unfold rectFallbackRule
  split
  · exact Or.inl rfl
  · exact Or.inr rfl

/-- The roles `classifyRectangle` can produce. -/
def rectRoles : List ComponentRole :=
  [ComponentRole.BUTTON, ComponentRole.CARD, ComponentRole.PROCESS_STEP,
   ComponentRole.UNKNOWN, ComponentRole.CONTAINER, ComponentRole.COMPONENT]

/-- A rule that either installs a role of the set or passes the accumulator
through keeps the running role inside the set. -/
theorem rectStepMem (f : RoleAcc → RoleAcc) (lit : ComponentRole)
    (hlit : lit ∈ rectRoles) (hstep : ∀ a, (f a).1 = lit ∨ f a = a)
    (a : RoleAcc) (ha : a.1 ∈ rectRoles) : (f a).1 ∈ rectRoles := by
  rcases hstep a with h | h
  · rw [h]; exact hlit
  · rw [h]; exact ha

theorem classifyRectangle_role_mem (rect : NormalizedElement)
    (hierarchy : ContainerHierarchy) (tas : List TextAttachment)
    (conns : List Connector) :
    (classifyRectangle rect hierarchy tas conns).role ∈ rectRoles := by
  unfold classifyRectangle
  dsimp only
  exact rectStepMem _ _ (by simp [rectRoles]) rectFallbackRule_role _
    (rectStepMem _ _ (by simp [rectRoles]) (rectLargeRule_role rect) _
      (rectStepMem _ _ (by simp [rectRoles]) (rectContainerRule_role _ _) _
        (rectStepMem _ _ (by simp [rectRoles]) (rectDatabaseRule_role rect _) _
          (rectStepMem _ _ (by simp [rectRoles]) (rectProcessRule_role rect _) _
            (rectStepMem _ _ (by simp [rectRoles]) (rectCardRule_role _ _ _ _) _
              (rectStepMem _ _ (by simp [rectRoles]) (rectButtonRule_role rect _ _) _
                (by simp [rectRoles])))))))

theorem classifyRectangle_role_ne_connector (rect : NormalizedElement)
    (hierarchy : ContainerHierarchy) (tas : List TextAttachment)
    (conns : List Connector) :
    (classifyRectangle rect hierarchy tas conns).role ≠
      ComponentRole.CONNECTOR := by
  have h := classifyRectangle_role_mem rect hierarchy tas conns
  simp only [rectRoles, List.mem_cons, List.mem_singleton] at h
  intro hc
  rw [hc] at h
  simp at h

theorem analyzeDiamonds_role (ra : RoleAssignment) (ds : List NormalizedElement)
    (h : ra ∈ analyzeDiamonds ds) : ra.role = ComponentRole.DECISION_POINT := by
  simp only [analyzeDiamonds, List.mem_map] at h
  obtain ⟨d, _, rfl⟩ := h
  rfl

theorem analyzeEllipses_role_ne_connector (ra : RoleAssignment)
    (es : List NormalizedElement) (h : ra ∈ analyzeEllipses es) :
    ra.role ≠ ComponentRole.CONNECTOR := by
  simp only [analyzeEllipses, List.mem_map] at h
  obtain ⟨e, _, rfl⟩ := h
  split
  · split <;> simp
  · simp

theorem analyzeTextElements_role_ne_connector (ra : RoleAssignment)
    (ts : List NormalizedElement) (tas : List TextAttachment)
    (h : ra ∈ analyzeTextElements ts tas) :
    ra.role ≠ ComponentRole.CONNECTOR := by
  simp only [analyzeTextElements, List.mem_map] at h
  obtain ⟨t, _, rfl⟩ := h
  split
  · split
    · simp
    · split <;> simp
  · simp

theorem analyzeImages_role (ra : RoleAssignment) (is : List NormalizedElement)
    (h : ra ∈ analyzeImages is) : ra.role = ComponentRole.IMAGE_PLACEHOLDER := by
  simp only [analyzeImages, List.mem_map] at h
  obtain ⟨i, _, rfl⟩ := h
  rfl

theorem analyzeConnectorRoles_elementId (ra : RoleAssignment)
    (conns : List Connector) (h : ra ∈ analyzeConnectorRoles conns) :
    ra.elementId ∈ conns.map (fun c => c.elementId) := by
  simp only [analyzeConnectorRoles, List.mem_map] at h
  obtain ⟨c, hc, rfl⟩ := h
  exact List.mem_map.2 ⟨c, hc, rfl⟩

/-- C4: every Connector emitted by the connector analyzer has a non-null
startAttachment and endAttachment, each snapped strictly within the 15-unit
threshold (recorded here by its squared distance, `distanceSq < 15²`); and a
CONNECTOR role is only ever assigned to an element of the emitted connector
list, so an arrow or line for which at most one endpoint resolves — which is
never emitted — never receives a CONNECTOR role. -/
theorem c4_connector_completeness (arrows lines allShapes : List NormalizedElement)
    (groups : ElementGroups) (hierarchy : ContainerHierarchy)
    (tas : List TextAttachment) :
    (∀ c ∈ analyzeConnectors arrows lines allShapes,
       ∃ sa ea, c.startAttachment = some sa ∧ c.endAttachment = some ea ∧
         sa.distanceSq < 15 ^ 2 ∧ ea.distanceSq < 15 ^ 2) ∧
    (∀ ra ∈ assignRoles groups hierarchy tas
        (analyzeConnectors arrows lines allShapes),
       ra.role = ComponentRole.CONNECTOR →
         ra.elementId ∈
           (analyzeConnectors arrows lines allShapes).map (fun c => c.elementId)) := by
  constructor
  · intro c hc
    simp only [analyzeConnectors, List.mem_append, List.mem_filterMap] at hc
    rcases hc with ⟨arrow, _, harr⟩ | ⟨line, _, hline⟩
    · exact analyzeArrowConnector_attachments arrow allShapes 15 c harr
    · exact analyzeLineConnector_attachments line allShapes 15 c hline
  · intro ra hra hrole
    simp only [assignRoles, List.mem_append] at hra
    rcases hra with ((((hra | hra) | hra) | hra) | hra) | hra
    · exfalso
      simp only [analyzeRectangles, List.mem_map] at hra
      obtain ⟨rect, _, rfl⟩ := hra
      exact classifyRectangle_role_ne_connector rect hierarchy tas _ hrole
    · exfalso
      rw [analyzeDiamonds_role ra _ hra] at hrole
      exact ComponentRole.noConfusion hrole
    · exact absurd hrole (analyzeEllipses_role_ne_connector ra _ hra)
    · exact absurd hrole (analyzeTextElements_role_ne_connector ra _ tas hra)
    · exfalso
      rw [analyzeImages_role ra _ hra] at hrole
      exact ComponentRole.noConfusion hrole
    · exact analyzeConnectorRoles_elementId ra _ hra

/-! Concrete inputs exercising the connector analyzer: an arrow whose
endpoints land exactly on the `right`/`left` attachment points of two
rectangles. -/

def exStyle : ElementStyle :=
  { backgroundColor := "transparent", strokeColor := "#000000",
    strokeWidth := 1, roundness := 0, fontSize := 16, opacity := 1 }

def arrowEx : NormalizedElement :=
  { id := "arrow1", type := "arrow",
    boundingBox := ⟨10, 45, 80, 10, 50, 50, 800⟩,
    style := exStyle, text := none, angle := 0, groupId := none, zIndex := 2 }

def shapeEx1 : NormalizedElement :=
  { id := "s1", type := "rectangle",
    boundingBox := ⟨0, 45, 10, 10, 5, 50, 100⟩,
    style := exStyle, text := none, angle := 0, groupId := none, zIndex := 0 }

def shapeEx2 : NormalizedElement :=
  { id := "s2", type := "rectangle",
    boundingBox := ⟨90, 45, 10, 10, 95, 50, 100⟩,
    style := exStyle, text := none, angle := 0, groupId := none, zIndex := 1 }

def connectorEx : Connector :=
  { elementId := "arrow1"
    startAttachment := some ⟨"s1", "right", 0⟩
    endAttachment := some ⟨"s2", "left", 0⟩
    direction := "start-to-end"
    label := none
    confidence := 0.9 }

def emptyGroups : ElementGroups := ⟨[], [], [], [], [], [], [], []⟩

def emptyHierarchy : ContainerHierarchy := ⟨[], [], []⟩

theorem analyzeConnectors_ex :
    analyzeConnectors [arrowEx] [] [shapeEx1, shapeEx2] = [connectorEx] := by
  simp +decide [analyzeConnectors, analyzeArrowConnector, findNearestShapeAttachment,
    scanPoints, getShapeAttachmentPoints, getArrowStartPoint, getArrowEndPoint,
    extractConnectorLabel, jsOrUndef, arrowEx, shapeEx1, shapeEx2, connectorEx,
    List.filterMap, List.foldl]
  norm_num

def connectorRoleEx : RoleAssignment :=
  { elementId := "arrow1", role := ComponentRole.CONNECTOR, confidence := 0.9,
    reasoning := ["Line/arrow connecting shapes"] }

theorem c4_witness :
    (∃ sa ea, connectorEx.startAttachment = some sa ∧
      connectorEx.endAttachment = some ea ∧
      sa.distanceSq < 15 ^ 2 ∧ ea.distanceSq < 15 ^ 2) ∧
    connectorRoleEx.elementId ∈
      (analyzeConnectors [arrowEx] [] [shapeEx1, shapeEx2]).map (fun c => c.elementId) := by
  have h := c4_connector_completeness [arrowEx] [] [shapeEx1, shapeEx2]
    emptyGroups emptyHierarchy []
  refine ⟨h.1 connectorEx (by rw [analyzeConnectors_ex]; exact List.mem_singleton.2 rfl), ?_⟩
  refine h.2 connectorRoleEx ?_ rfl
  rw [analyzeConnectors_ex]
  simp [assignRoles, analyzeRectangles, analyzeDiamonds, analyzeEllipses,
    analyzeTextElements, analyzeImages, analyzeConnectorRoles, emptyGroups,
    connectorRoleEx, connectorEx]

/-! ## C3: containment parent map -/

theorem jsMapSet_mem {α : Type} (m : List (String × α)) (k : String) (v : α)
    (p : String × α) (h : p ∈ jsMapSet m k v) : p ∈ m ∨ p = (k, v) := by
  induction m with
  | nil => simpa [jsMapSet] using h
  | cons q rest ih =>
    rw [jsMapSet] at h
    split at h
    · rcases List.mem_cons.1 h with h | h
      · exact Or.inr h
      · exact Or.inl (List.mem_cons_of_mem _ h)
    · rcases List.mem_cons.1 h with h | h
      · exact Or.inl (h ▸ List.mem_cons_self _ _)
      · rcases ih h with h | h
        · exact Or.inl (List.mem_cons_of_mem _ h)
        · exact Or.inr h

theorem claimChildren_no_self (container : NormalizedElement)
    (elements : List NormalizedElement) (st : ContainmentState)
    (h : ∀ p ∈ st.parentMap, p.1 ≠ p.2) :
    ∀ p ∈ (claimChildren container elements st).parentMap, p.1 ≠ p.2 := by
  have key := foldl_preserves
    (fun (acc : List String × List (String × String))
        (element : NormalizedElement) =>
      if element.id = container.id then acc
      else if jsMapHas acc.2 element.id then acc
      else if isContained element container then
        (acc.1 ++ [element.id], jsMapSet acc.2 element.id container.id)
      else acc)
    (fun acc => ∀ p ∈ acc.2, p.1 ≠ p.2)
    (by
      intro acc el hacc
      dsimp only
      by_cases hself : el.id = container.id
      · simpa [hself] using hacc
      · rw [if_neg hself]
        split
        · exact hacc
        · split
          · intro p hp
            rcases jsMapSet_mem _ _ _ p hp with hm | hm
            · exact hacc p hm
            · rw [hm]; exact hself
          · exact hacc)
    elements ([], st.parentMap) h
  intro p hp
  exact key p hp

/-- C3 (amended): when no element carries a native `groupId`, the parent map
records no element as its own direct parent (`parentMap` has no self-loop);
the containment pass skips each candidate container when scanning for its
own children. -/
theorem c3_no_self_parent (groups : ElementGroups)
    (hng : ∀ el ∈ groups.rectangles ++ groups.diamonds ++ groups.ellipses ++
      groups.text ++ groups.images ++ groups.other, el.groupId = none) :
    ∀ p ∈ (detectContainers groups).parentMap, p.1 ≠ p.2 := by
  unfold detectContainers
  dsimp only
  have hfilter : (groups.rectangles ++ groups.diamonds ++ groups.ellipses ++
      groups.text ++ groups.images ++ groups.other).filter
      (fun el => el.groupId.isSome) = [] := by
    rw [List.filter_eq_nil_iff]
    intro el hel
    simp [hng el hel]
  rw [hfilter]
  simp only [groupsById, List.foldl_nil]
  exact foldl_preserves _
    (fun (st : ContainmentState) => ∀ p ∈ st.parentMap, p.1 ≠ p.2)
    (fun st container hst => claimChildren_no_self container _ st hst)
    _ ⟨[], []⟩ (by simp)

/-- Repeated traversal of `parentMap` (the "follow the parent" chain). -/
def parentIterate (pm : List (String × String)) : ℕ → String → Option String
  | 0, x => some x
  | n + 1, x =>
    match jsMapGet pm x with
    | some p => parentIterate pm n p
    | none => none

def rectC3A : NormalizedElement :=
  { id := "A", type := "rectangle",
    boundingBox := ⟨0, 0, 100, 100, 50, 50, 10000⟩,
    style := exStyle, text := none, angle := 0, groupId := none, zIndex := 0 }

def rectC3B : NormalizedElement :=
  { id := "B", type := "rectangle",
    boundingBox := ⟨0, 0, 100, 100, 50, 50, 10000⟩,
    style := exStyle, text := none, angle := 0, groupId := none, zIndex := 1 }

def groupsC3 : ElementGroups :=
  { rectangles := [rectC3A, rectC3B], diamonds := [], ellipses := [],
    arrows := [], lines := [], text := [], images := [], other := [] }

/-- C3 (counterexample): two coincident large rectangles mutually contain
each other, so container detection records the parent cycle A → B → A: each
element is the other's parent, and following `parentMap` from A for two
steps returns A itself — A is recorded as its own ancestor and the traversal
never terminates. -/
theorem c3_counterexample :
    jsMapGet (detectContainers groupsC3).parentMap "B" = some "A" ∧
    jsMapGet (detectContainers groupsC3).parentMap "A" = some "B" ∧
    parentIterate (detectContainers groupsC3).parentMap 2 "A" = some "A" := by
  have h : (detectContainers groupsC3).parentMap = [("B", "A"), ("A", "B")] := by
    simp +decide [detectContainers, groupsC3, rectC3A, rectC3B, sortByZ,
      insertByZ, claimChildren, isContained, calculateOverlap, groupsById,
      jsMapHas, jsMapGet, jsMapSet, List.foldl]
  rw [h]
  simp +decide [parentIterate, jsMapGet]

theorem c3_witness :
    ("B", "A") ∈ (detectContainers groupsC3).parentMap ∧ ("B" : String) ≠ "A" := by
  constructor
  · have h : (detectContainers groupsC3).parentMap = [("B", "A"), ("A", "B")] := by
      simp +decide [detectContainers, groupsC3, rectC3A, rectC3B, sortByZ,
        insertByZ, claimChildren, isContained, calculateOverlap, groupsById,
        jsMapHas, jsMapGet, jsMapSet, List.foldl]
    rw [h]
    simp
  · refine c3_no_self_parent groupsC3 ?_ ("B", "A") ?_
    · intro el hel
      simp only [groupsC3] at hel
      simp only [List.append_nil] at hel
      rcases List.mem_cons.1 hel with h | h
      · rw [h]; rfl
      · rcases List.mem_cons.1 h with h | h
        · rw [h]; rfl
        · simp at h
    · have h : (detectContainers groupsC3).parentMap = [("B", "A"), ("A", "B")] := by
        simp +decide [detectContainers, groupsC3, rectC3A, rectC3B, sortByZ,
          insertByZ, claimChildren, isContained, calculateOverlap, groupsById,
          jsMapHas, jsMapGet, jsMapSet, List.foldl]
      rw [h]
      simp

/-! ## C7: title attachment of unparented text -/

/-- C7 (amended): for a text element with no containment parent, the title
scan attaches the text (as `title`, confidence 0.8) to the FIRST element of
the shape list that qualifies — positive vertical gap of at most 20 units
below the text and more than 50% horizontal overlap — not to the nearest
qualifying shape. -/
theorem c7_title_attaches_first_qualifying (textElement : NormalizedElement)
    (allElements : List NormalizedElement) (hierarchy : ContainerHierarchy)
    (el : NormalizedElement)
    (hparent : jsMapGet hierarchy.parentMap textElement.id = none)
    (hfind : allElements.find? (titleScanMatch textElement) = some el) :
    findTextAttachment textElement allElements hierarchy =
      { textId := textElement.id, attachedTo := some el.id,
        attachmentType := "title", confidence := 0.8 } := by
  unfold findTextAttachment
  rw [hparent]
  unfold findTextAttachment.findTextAttachmentScan
  rw [hfind]

def textC7 : NormalizedElement :=
  { id := "T", type := "text",
    boundingBox := ⟨0, 0, 100, 10, 50, 5, 1000⟩,
    style := exStyle, text := some "Email Address", angle := 0,
    groupId := none, zIndex := 0 }

/-- Listed first, 15 units below the text. -/
def shapeC7far : NormalizedElement :=
  { id := "S1", type := "rectangle",
    boundingBox := ⟨0, 25, 100, 10, 50, 30, 1000⟩,
    style := exStyle, text := none, angle := 0, groupId := none, zIndex := 1 }

/-- Listed second, only 5 units below the text — the nearer qualifying
shape. -/
def shapeC7near : NormalizedElement :=
  { id := "S2", type := "rectangle",
    boundingBox := ⟨0, 15, 100, 10, 50, 20, 1000⟩,
    style := exStyle, text := none, angle := 0, groupId := none, zIndex := 2 }

/-- C7 (counterexample): both shapes qualify as title targets and S2 is
strictly nearer to the text, yet the attachment goes to S1, the first
qualifying shape in list order — not to the nearest one. -/
theorem c7_counterexample :
    findTextAttachment textC7 [shapeC7far, shapeC7near] emptyHierarchy =
      { textId := "T", attachedTo := some "S1", attachmentType := "title",
        confidence := 0.8 } ∧
    titleScanMatch textC7 shapeC7near = true ∧
    titleScanMatch textC7 shapeC7far = true ∧
    shapeC7near.boundingBox.y -
        (textC7.boundingBox.y + textC7.boundingBox.height) <
      shapeC7far.boundingBox.y -
        (textC7.boundingBox.y + textC7.boundingBox.height) := by
  refine ⟨?_, ?_, ?_, by simp +decide [shapeC7near, shapeC7far, textC7]⟩
  · simp +decide [findTextAttachment, findTextAttachment.findTextAttachmentScan,
      titleScanMatch, calculateHorizontalOverlap, emptyHierarchy, jsMapGet,
      textC7, shapeC7far, shapeC7near, List.find?]
    norm_num
  · simp +decide [titleScanMatch, calculateHorizontalOverlap, textC7, shapeC7near]
    norm_num
  · simp +decide [titleScanMatch, calculateHorizontalOverlap, textC7, shapeC7far]
    norm_num

theorem c7_witness :
    findTextAttachment textC7 [shapeC7far, shapeC7near] emptyHierarchy =
      { textId := textC7.id, attachedTo := some shapeC7far.id,
        attachmentType := "title", confidence := 0.8 } := by
  refine c7_title_attaches_first_qualifying textC7 _ emptyHierarchy shapeC7far
    rfl ?_
  simp +decide [titleScanMatch, calculateHorizontalOverlap, textC7,
    shapeC7far, List.find?]
  norm_num

/-! ## C2: rectangle rule priority -/

theorem containsAux_head (c : Char) (cs l : List Char)
    (h : containsAux (c :: cs) l = true) : c ∈ l := by
  induction l with
  | nil => simp [containsAux, List.isPrefixOf] at h
  | cons d ds ih =>
    rw [containsAux, Bool.or_eq_true] at h
    rcases h with h | h
    · have : c = d := by
        rw [List.isPrefixOf, Bool.and_eq_true] at h
        exact beq_iff_eq.1 h.1
      rw [this]
      exact List.mem_cons_self _ _
    · exact List.mem_cons_of_mem _ (ih h)

theorem jsJoin_objects_chars (l : List TextAttachment) (c : Char)
    (h : c ∈ (jsJoin " " (l.map (fun _ => jsObjectString))).data) :
    c ∈ ("[object Object] ").data := by
  induction l with
  | nil => simp [jsJoin] at h
  | cons a as ih =>
    have hobj : ∀ x ∈ ("[object Object]").data, x ∈ ("[object Object] ").data := by
      decide
    have hsp : ∀ x ∈ (" ").data, x ∈ ("[object Object] ").data := by
      decide
    rcases as with _ | ⟨b, bs⟩
    · simp only [List.map_cons, List.map_nil, jsJoin] at h
      exact hobj c h
    · simp only [List.map_cons, jsJoin, String.data_append] at h
      rcases List.mem_append.1 h with h | h
      · rcases List.mem_append.1 h with h | h
        · exact hobj c h
        · exact hsp c h
      · apply ih
        simp only [List.map_cons, jsJoin]
        exact h

theorem rectText_chars (attachedText : List TextAttachment) (c : Char)
    (h : c ∈ (rectText attachedText).data) : c ∈ ("[object Object] ").data := by
  unfold rectText at h
  split at h
  · exact jsJoin_objects_chars _ c h
  · simp [String.data] at h

/-- The joined "[object Object]" text never contains the database
keywords. -/
theorem rectText_no_db (attachedText : List TextAttachment) :
    containsStr (jsToLower (rectText attachedText)) "database" = false ∧
    containsStr (jsToLower (rectText attachedText)) "db" = false := by
  have hd : ('d' : Char) ∉ (jsToLower (rectText attachedText)).data := by
    intro hmem
    simp only [jsToLower, List.mem_map] at hmem
    obtain ⟨c, hc, hlower⟩ := hmem
    have hc' := rectText_chars attachedText c hc
    have : ∀ c ∈ ("[object Object] ").data, jsLowerChar c ≠ 'd' := by
      decide
    exact this c hc' hlower
  constructor
  · by_contra h
    rw [Bool.not_eq_false] at h
    exact hd (containsAux_head 'd' _ _ h)
  · by_contra h
    rw [Bool.not_eq_false] at h
    exact hd (containsAux_head 'd' _ _ h)

theorem rectProcessRule_fires (rect : NormalizedElement) (hc : Bool)
    (acc : RoleAcc) (h1 : hc = true) (h2 : rect.style.roundness > 0.1) :
    rectProcessRule rect hc acc =
      (ComponentRole.PROCESS_STEP, (0.8 : ℚ),
       acc.2.2 ++ ["Rounded rectangle with connectors (flow element)"]) := by
  unfold rectProcessRule
  rw [if_pos]
  exact ⟨h1, ne_of_gt (lt_trans (by norm_num) h2), h2⟩

theorem rectDatabaseRule_skip (rect : NormalizedElement) (text : String)
    (acc : RoleAcc)
    (hdb : containsStr (jsToLower text) "database" = false)
    (hdb2 : containsStr (jsToLower text) "db" = false) :
    rectDatabaseRule rect text acc = acc := by
  unfold rectDatabaseRule
  dsimp only
  rw [if_neg]
  rintro ⟨-, -, -, h | h⟩
  · rw [hdb] at h; exact Bool.false_ne_true h
  · rw [hdb2] at h; exact Bool.false_ne_true h

theorem rectContainerRule_skip (isContainer : Bool) (containedCount : ℕ)
    (acc : RoleAcc) (h : acc.1 ≠ ComponentRole.UNKNOWN) :
    rectContainerRule isContainer containedCount acc = acc := by
  unfold rectContainerRule
  rw [if_neg]
  rintro ⟨-, -, hr⟩
  exact h hr

theorem rectLargeRule_skip (rect : NormalizedElement) (acc : RoleAcc)
    (h : acc.1 ≠ ComponentRole.UNKNOWN) : rectLargeRule rect acc = acc := by
  unfold rectLargeRule
  rw [if_neg]
  rintro ⟨hr, -⟩
  exact h hr

theorem rectFallbackRule_skip (acc : RoleAcc)
    (h : acc.1 ≠ ComponentRole.UNKNOWN) : rectFallbackRule acc = acc := by
  unfold rectFallbackRule
  rw [if_neg h]

/-- C2 (amended): the rectangle rules are applied in sequence with later
matching rules OVERWRITING earlier ones (last-match-wins, not
first-match-wins); in particular every rounded rectangle with a resolved
connector attachment that is a container with more than one child and has
attached text is assigned PROCESS_STEP with confidence 0.8 — the
PROCESS_STEP rule, evaluated after the CARD rule, overwrites CARD. -/
theorem c2_process_overwrites_card (rect : NormalizedElement)
    (hierarchy : ContainerHierarchy) (tas : List TextAttachment)
    (conns : List Connector)
    (hround : rect.style.roundness > 0.1)
    (hconn : rectHasConnectors rect conns = true) :
    (classifyRectangle rect hierarchy tas conns).role =
      ComponentRole.PROCESS_STEP ∧
    (classifyRectangle rect hierarchy tas conns).confidence = 0.8 := by
  unfold classifyRectangle
  dsimp only
  rw [rectProcessRule_fires rect _ _ hconn hround,
    rectDatabaseRule_skip rect _ _ (rectText_no_db _).1 (rectText_no_db _).2,
    rectContainerRule_skip _ _ _ (by simp),
    rectLargeRule_skip rect _ (by simp),
    rectFallbackRule_skip _ (by simp)]
  exact ⟨rfl, rfl⟩

/-- A rounded rectangle that is a container with two children, carries
attached text, and has a resolved connector attachment. -/
def rectC2 : NormalizedElement :=
  { id := "R", type := "rectangle",
    boundingBox := ⟨0, 0, 100, 100, 50, 50, 10000⟩,
    style := ⟨"transparent", "#000000", 1, 1, 16, 1⟩,
    text := none, angle := 0, groupId := none, zIndex := 0 }

def hierC2 : ContainerHierarchy :=
  { containers := [],
    containmentMap := [("R", ["c1", "c2"])],
    parentMap := [("c1", "R"), ("c2", "R")] }

def tasC2 : List TextAttachment :=
  [{ textId := "t1", attachedTo := some "R", attachmentType := "title",
     confidence := 0.8 }]

def connC2 : Connector :=
  { elementId := "a1",
    startAttachment := some ⟨"R", "center", 0⟩,
    endAttachment := some ⟨"s9", "center", 0⟩,
    direction := "start-to-end", label := none, confidence := 0.9 }

/-- C2 (counterexample): this rounded, connected, text-bearing multi-child
container is classified PROCESS_STEP (0.8), not CARD (0.7) — the
PROCESS_STEP rule runs after CARD and overwrites it, so the ordered rules
are not first-match-wins. -/
theorem c2_counterexample :
    (classifyRectangle rectC2 hierC2 tasC2 [connC2]).role =
      ComponentRole.PROCESS_STEP ∧
    (classifyRectangle rectC2 hierC2 tasC2 [connC2]).role ≠
      ComponentRole.CARD ∧
    (classifyRectangle rectC2 hierC2 tasC2 [connC2]).confidence ≠ 0.7 ∧
    rectC2.style.roundness > 0.1 ∧
    rectHasConnectors rectC2 [connC2] = true ∧
    jsMapHas hierC2.containmentMap rectC2.id = true ∧
    ((jsMapGet hierC2.containmentMap rectC2.id).getD []).length > 1 ∧
    rectAttachedText rectC2 tasC2 ≠ [] := by
  have h : classifyRectangle rectC2 hierC2 tasC2 [connC2] =
      { elementId := "R", role := ComponentRole.PROCESS_STEP,
        confidence := 0.8,
        reasoning := ["Contains 2 elements", "Has title text",
          "Rounded rectangle with connectors (flow element)"] } := by
    simp +decide [classifyRectangle, rectAttachedText, rectText,
      rectHasConnectors, rectButtonRule, rectCardRule, rectProcessRule,
      rectDatabaseRule, rectContainerRule, rectLargeRule, rectFallbackRule,
      jsMapHas, jsMapGet, jsJoin, jsObjectString, jsToLower, jsLowerChar,
      containsStr, containsAux, rectC2, hierC2, tasC2, connC2]
    norm_num
    simp +decide
  rw [h]
  refine ⟨rfl, by simp, by norm_num, by norm_num [rectC2], ?_, rfl, ?_, ?_⟩
  · simp +decide [rectHasConnectors, rectC2, connC2]
  · simp [jsMapGet, hierC2, rectC2]
  · simp +decide [rectAttachedText, rectC2, tasC2]

theorem c2_witness :
    (classifyRectangle rectC2 hierC2 tasC2 [connC2]).role =
      ComponentRole.PROCESS_STEP ∧
    (classifyRectangle rectC2 hierC2 tasC2 [connC2]).confidence = 0.8 :=
  c2_process_overwrites_card rectC2 hierC2 tasC2 [connC2]
    (by norm_num [rectC2])
    (by simp +decide [rectHasConnectors, rectC2, connC2])

/-! ## C8: rotated bounding-box area -/

/-- The spread of the four corner coordinates `{0, a, a+b, b}` is
`|a| + |b|`. -/
theorem spread_eq_abs_add_abs (a b : ℝ) :
    max (max (max 0 a) (a + b)) b - min (min (min 0 a) (a + b)) b =
      |a| + |b| := by
  rcases le_total 0 a with ha | ha <;> rcases le_total 0 b with hb | hb
  · rw [abs_of_nonneg ha, abs_of_nonneg hb,
      max_eq_right ha, max_eq_right (by linarith : a ≤ a + b),
      max_eq_left (by linarith : b ≤ a + b),
      min_eq_left ha, min_eq_left (by linarith : (0:ℝ) ≤ a + b),
      min_eq_left hb]
    ring
  · rw [abs_of_nonneg ha, abs_of_nonpos hb,
      max_eq_right ha, max_eq_left (by linarith : a + b ≤ a),
      max_eq_left (by linarith : b ≤ a),
      min_eq_left ha,
      min_eq_right (le_min (by linarith) (by linarith) : b ≤ min 0 (a + b))]
    ring
  · rw [abs_of_nonpos ha, abs_of_nonneg hb,
      max_eq_left ha,
      max_eq_right (max_le hb (by linarith) : max 0 (a + b) ≤ b),
      min_eq_right ha, min_eq_left (by linarith : a ≤ a + b),
      min_eq_left (by linarith : a ≤ b)]
    ring
  · rw [abs_of_nonpos ha, abs_of_nonpos hb,
      max_eq_left ha, max_eq_left (by linarith : a + b ≤ 0),
      max_eq_left hb,
      min_eq_right ha, min_eq_right (by linarith : a + b ≤ a),
      min_eq_left (by linarith : a + b ≤ b)]
    ring

/-- Product of the two corner spreads, in closed form. -/
theorem rotated_extent_product (w h c s : ℝ) (hw : 0 < w) (hh : 0 < h)
    (hcs : c ^ 2 + s ^ 2 = 1) :
    (max (max (max (0 * c - 0 * s) (w * c - 0 * s)) (w * c - h * s))
        (0 * c - h * s) -
      min (min (min (0 * c - 0 * s) (w * c - 0 * s)) (w * c - h * s))
        (0 * c - h * s)) *
    (max (max (max (0 * s + 0 * c) (w * s + 0 * c)) (w * s + h * c))
        (0 * s + h * c) -
      min (min (min (0 * s + 0 * c) (w * s + 0 * c)) (w * s + h * c))
        (0 * s + h * c)) =
    w * h + (w ^ 2 + h ^ 2) * |c * s| := by
  have e0 : (0:ℝ) * c - 0 * s = 0 := by ring
  have e1 : w * c - 0 * s = w * c := by ring
  have e2 : w * c - h * s = w * c + -(h * s) := by ring
  have e3 : (0:ℝ) * c - h * s = -(h * s) := by ring
  have f0 : (0:ℝ) * s + 0 * c = 0 := by ring
  have f1 : w * s + 0 * c = w * s := by ring
  have f3 : (0:ℝ) * s + h * c = h * c := by ring
  rw [e0, e1, e2, e3, f0, f1, f3, spread_eq_abs_add_abs,
    spread_eq_abs_add_abs, abs_neg, abs_mul, abs_mul, abs_mul, abs_mul,
    abs_of_pos hw, abs_of_pos hh]
  have key : (w * |c| + h * |s|) * (w * |s| + h * |c|) =
      w * h * (|c| ^ 2 + |s| ^ 2) + (w ^ 2 + h ^ 2) * (|c| * |s|) := by ring
  rw [key, sq_abs, sq_abs, hcs, ← abs_mul]
  ring

/-- The area of the rotated axis-aligned box, in closed form. -/
theorem calculateBoundingBoxR_area (e : RawShapeR) (hang : ¬ e.angle = 0)
    (hw : 0 < e.width) (hh : 0 < e.height) :
    (calculateBoundingBoxR e).area =
      e.width * e.height +
        (e.width ^ 2 + e.height ^ 2) *
          |Real.cos e.angle * Real.sin e.angle| := by
  unfold calculateBoundingBoxR
  dsimp only
  rw [if_pos hang]
  dsimp only
  exact rotated_extent_product e.width e.height (Real.cos e.angle)
    (Real.sin e.angle) hw hh (Real.cos_sq_add_sin_sq e.angle)

/-- Within one turn, `cos θ · sin θ` vanishes exactly at the axis angles. -/
theorem cos_mul_sin_eq_zero_iff (θ : ℝ) (h0 : 0 ≤ θ) (h2 : θ < 2 * Real.pi)
    (hne : θ ≠ 0) :
    Real.cos θ * Real.sin θ = 0 ↔
      (θ = Real.pi / 2 ∨ θ = Real.pi ∨ θ = 3 * Real.pi / 2) := by
  have hpi := Real.pi_pos
  rw [mul_eq_zero]
  constructor
  · rintro (hc | hs)
    · rw [Real.cos_eq_zero_iff] at hc
      obtain ⟨k, hk⟩ := hc
      have hlow : (0:ℝ) ≤ 2 * (k:ℝ) + 1 := by nlinarith
      have hhigh : (2 * (k:ℝ) + 1) < 4 := by nlinarith
      have hlow' : (0:ℤ) ≤ 2 * k + 1 := by exact_mod_cast hlow
      have hhigh' : (2 * k + 1 : ℤ) < 4 := by exact_mod_cast hhigh
      have hk01 : k = 0 ∨ k = 1 := by omega
      rcases hk01 with h | h
      · subst h
        left
        rw [hk]
        push_cast
        ring
      · subst h
        right; right
        rw [hk]
        push_cast
        ring
    · rw [Real.sin_eq_zero_iff] at hs
      obtain ⟨n, hn⟩ := hs
      have hlow : (0:ℝ) ≤ (n:ℝ) := by nlinarith
      have hhigh : (n:ℝ) < 2 := by nlinarith
      have hlow' : (0:ℤ) ≤ n := by exact_mod_cast hlow
      have hhigh' : (n:ℤ) < 2 := by exact_mod_cast hhigh
      have hn01 : n = 0 ∨ n = 1 := by omega
      rcases hn01 with h | h
      · subst h
        exact absurd hn.symm (by simpa using hne)
      · subst h
        right; left
        rw [← hn]
        push_cast
        ring
  · rintro (h | h | h)
    · subst h
      left
      exact Real.cos_pi_div_two
    · subst h
      right
      exact Real.sin_pi
    · subst h
      left
      rw [Real.cos_eq_zero_iff]
      exact ⟨1, by push_cast; ring⟩

/-- C8: for every shape with positive width and height rotated by an angle in
[0, 2π), the area of the computed axis-aligned bounding box is at least
`width · height`, with equality exactly at 0, π/2, π and 3π/2 (0°, 90°, 180°,
270°). -/
theorem c8_rotation_area (e : RawShapeR) (hw : 0 < e.width)
    (hh : 0 < e.height) (h0 : 0 ≤ e.angle) (h2 : e.angle < 2 * Real.pi) :
    e.width * e.height ≤ (calculateBoundingBoxR e).area ∧
    ((calculateBoundingBoxR e).area = e.width * e.height ↔
      (e.angle = 0 ∨ e.angle = Real.pi / 2 ∨ e.angle = Real.pi ∨
        e.angle = 3 * Real.pi / 2)) := by
  by_cases hang : e.angle = 0
  · have harea : (calculateBoundingBoxR e).area = e.width * e.height := by
      unfold calculateBoundingBoxR
      dsimp only
      rw [if_neg (not_not_intro hang)]
    rw [harea]
    exact ⟨le_refl _, by simp [hang]⟩
  · rw [calculateBoundingBoxR_area e hang hw hh]
    have hnn : 0 ≤ (e.width ^ 2 + e.height ^ 2) *
        |Real.cos e.angle * Real.sin e.angle| :=
      mul_nonneg (by positivity) (abs_nonneg _)
    constructor
    · linarith
    · constructor
      · intro heq
        have hzero : (e.width ^ 2 + e.height ^ 2) *
            |Real.cos e.angle * Real.sin e.angle| = 0 := by linarith
        have habs : |Real.cos e.angle * Real.sin e.angle| = 0 := by
          rcases mul_eq_zero.1 hzero with h | h
          · exfalso; nlinarith
          · exact h
        right
        exact (cos_mul_sin_eq_zero_iff e.angle h0 h2 hang).1 (abs_eq_zero.1 habs)
      · rintro (h | hrest)
        · exact absurd h hang
        · rw [(cos_mul_sin_eq_zero_iff e.angle h0 h2 hang).2 hrest,
            abs_zero, mul_zero, add_zero]

theorem c8_witness :
    (1:ℝ) * 2 ≤ (calculateBoundingBoxR ⟨0, 0, 1, 2, 0⟩).area ∧
    ((calculateBoundingBoxR ⟨0, 0, 1, 2, 0⟩).area = 1 * 2 ↔
      ((0:ℝ) = 0 ∨ (0:ℝ) = Real.pi / 2 ∨ (0:ℝ) = Real.pi ∨
        (0:ℝ) = 3 * Real.pi / 2)) :=
  c8_rotation_area ⟨0, 0, 1, 2, 0⟩ (by norm_num) (by norm_num) (le_refl 0)
    Real.two_pi_pos

/-! ## C9: snapshot save / restore -/

theorem jsMapSet_of_not_mem {α : Type} (m : List (String × α)) (k : String)
    (v : α) (h : k ∉ m.map Prod.fst) : jsMapSet m k v = m ++ [(k, v)] := by
  induction m with
  | nil => rfl
  | cons q rest ih =>
    rw [List.map_cons, List.mem_cons] at h
    push_neg at h
    rw [jsMapSet, if_neg (fun hq : q.1 = k => h.1 hq.symm), ih h.2,
      List.cons_append]

/-- Rebuilding a key-distinct map entry by entry (`forEach` + `set`)
appends it to the accumulator verbatim. -/
theorem foldl_jsMapSet_append {α : Type} :
    ∀ (l acc : List (String × α)),
      (l.map Prod.fst).Nodup →
      (∀ k ∈ l.map Prod.fst, k ∉ acc.map Prod.fst) →
      l.foldl (fun m p => jsMapSet m p.1 p.2) acc = acc ++ l := by
  intro l
  induction l with
  | nil => intro acc _ _; simp
  | cons p rest ih =>
    intro acc hnd hdisj
    rw [List.foldl_cons,
      jsMapSet_of_not_mem acc p.1 p.2 (hdisj p.1 (by simp))]
    rw [List.map_cons] at hnd
    have hrest := ih (acc ++ [(p.1, p.2)]) (List.nodup_cons.1 hnd).2 ?_
    · rw [hrest, List.append_assoc]
      simp
    · intro k hk
      rw [List.map_append]
      intro hmem
      rcases List.mem_append.1 hmem with hm | hm
      · exact hdisj k (by simp [hk]) hm
      · simp only [List.map_cons, List.map_nil, List.mem_singleton] at hm
        exact (List.nodup_cons.1 hnd).1 (hm ▸ hk)

theorem restore_rebuild {α : Type} (l : List (String × α))
    (hnd : (l.map Prod.fst).Nodup) :
    l.foldl (fun m p => jsMapSet m p.1 p.2) ([] : List (String × α)) = l := by
  have h := foldl_jsMapSet_append l [] hnd (by simp)
  simpa using h

theorem saveSnapshot_snapshots (st : StorageState) (operation : String)
    (elementId : Option String) (now : ℕ)
    (h : st.snapshots.length < maxSnapshotHistory) :
    (saveSnapshot st operation elementId now).2.snapshots =
      st.snapshots ++
        [{ id := (saveSnapshot st operation elementId now).1, timestamp := now,
           data := st.widgets, operation := operation,
           elementId := elementId }] := by
  unfold saveSnapshot
  dsimp only
  rw [if_neg]
  simp only [List.length_append, List.length_cons, List.length_nil]
  omega

theorem applyOp_snapshots (st : StorageState) (op : StorageOp) (now : ℕ)
    (h : st.snapshots.length < maxSnapshotHistory) :
    ∃ tail, (applyOp st op now).snapshots = st.snapshots ++ tail ∧
      tail.length ≤ 1 := by
  cases op with
  | setOp elementId metadata =>
    simp only [applyOp, storageSet]
    split
    · refine ⟨[⟨(saveSnapshot st "update" (some elementId) now).1, now,
        st.widgets, "update", some elementId⟩], ?_, by simp⟩
      dsimp only
      rw [saveSnapshot_snapshots st _ _ now h]
    · exact ⟨[], by simp, by simp⟩
  | updateOp elementId updates =>
    simp only [applyOp, storageUpdate]
    split
    · exact ⟨[], by simp, by simp⟩
    · split
      · refine ⟨[⟨(saveSnapshot st "update" (some elementId) now).1, now,
          st.widgets, "update", some elementId⟩], ?_, by simp⟩
        dsimp only
        rw [saveSnapshot_snapshots st _ _ now h]
      · exact ⟨[], by simp, by simp⟩
  | deleteOp elementId =>
    simp only [applyOp, storageDelete]
    split
    · refine ⟨[⟨(saveSnapshot st "delete" (some elementId) now).1, now,
        st.widgets, "delete", some elementId⟩], ?_, by simp⟩
      dsimp only
      rw [saveSnapshot_snapshots st _ _ now h]
    · exact ⟨[], by simp, by simp⟩
  | clearOp =>
    simp only [applyOp, storageClear]
    refine ⟨[⟨(saveSnapshot st "clear" none now).1, now,
      st.widgets, "clear", none⟩], ?_, by simp⟩
    dsimp only
    rw [saveSnapshot_snapshots st _ _ now h]

theorem applyOps_find (ops : List (StorageOp × ℕ)) :
    ∀ (st : StorageState) (sid : String) (snap : StorageSnapshot),
      st.snapshots.find? (fun s => s.id = sid) = some snap →
      st.snapshots.length + ops.length ≤ maxSnapshotHistory →
      (applyOps st ops).snapshots.find? (fun s => s.id = sid) = some snap ∧
      (applyOps st ops).snapshots.length ≤ st.snapshots.length + ops.length := by
  induction ops with
  | nil =>
    intro st sid snap hfind _
    exact ⟨hfind, le_refl _⟩
  | cons op rest ih =>
    intro st sid snap hfind hlen
    rw [List.length_cons] at hlen
    obtain ⟨tail, htail, htlen⟩ :=
      applyOp_snapshots st op.1 op.2 (by omega)
    rw [applyOps]
    have hfind' : (applyOp st op.1 op.2).snapshots.find?
        (fun s => s.id = sid) = some snap := by
      rw [htail, List.find?_append, hfind]
      rfl
    have hlen' : (applyOp st op.1 op.2).snapshots.length ≤
        st.snapshots.length + 1 := by
      rw [htail, List.length_append]
      omega
    obtain ⟨h1, h2⟩ := ih (applyOp st op.1 op.2) sid snap hfind' (by omega)
    refine ⟨h1, ?_⟩
    simp only [List.length_cons]
    omega

/-- C9 (amended): a saved snapshot can be restored with the pre-mutation
values — but only while it is still inside the 50-entry FIFO history.  If
after `saveSnapshot` returns `sid` the subsequent `set`/`update`/`delete`/
`clear` mutations push at most enough snapshots to keep the history at or
under its cap (`st0.snapshots.length + 1 + ops.length ≤ 50`), then
`restoreSnapshot sid` returns `true` and afterwards `get k` returns exactly
the value `k` had when the snapshot was taken, for every key.  (The id
freshness and key-distinctness hypotheses are invariants of every state the
manager can reach: the snapshot counter only grows, and widget keys are
`Map` keys.) -/
theorem c9_snapshot_restore_capped (st0 : StorageState) (operation : String)
    (elementId : Option String) (now0 : ℕ) (ops : List (StorageOp × ℕ))
    (hfresh : ∀ s ∈ st0.snapshots,
      s.id ≠ (saveSnapshot st0 operation elementId now0).1)
    (hnodup : (st0.widgets.map Prod.fst).Nodup)
    (hcap : st0.snapshots.length + 1 + ops.length ≤ maxSnapshotHistory) :
    (restoreSnapshot
        (applyOps (saveSnapshot st0 operation elementId now0).2 ops)
        (saveSnapshot st0 operation elementId now0).1).1 = true ∧
    ∀ k, jsMapGet (restoreSnapshot
        (applyOps (saveSnapshot st0 operation elementId now0).2 ops)
        (saveSnapshot st0 operation elementId now0).1).2.widgets k =
      jsMapGet st0.widgets k := by
  have hsnap1 := saveSnapshot_snapshots st0 operation elementId now0
    (by omega)
  have hfind1 : (saveSnapshot st0 operation elementId now0).2.snapshots.find?
      (fun s => s.id = (saveSnapshot st0 operation elementId now0).1) =
      some ⟨(saveSnapshot st0 operation elementId now0).1, now0, st0.widgets,
        operation, elementId⟩ := by
    rw [hsnap1, List.find?_append]
    have hnone : st0.snapshots.find?
        (fun s => s.id = (saveSnapshot st0 operation elementId now0).1) =
        none := by
      rw [List.find?_eq_none]
      intro s hs
      simp [hfresh s hs]
    rw [hnone]
    simp [List.find?]
  have hlen1 : (saveSnapshot st0 operation elementId now0).2.snapshots.length =
      st0.snapshots.length + 1 := by
    rw [hsnap1]
    simp
  obtain ⟨hfind2, _⟩ := applyOps_find ops
    (saveSnapshot st0 operation elementId now0).2
    (saveSnapshot st0 operation elementId now0).1
    ⟨(saveSnapshot st0 operation elementId now0).1, now0, st0.widgets,
      operation, elementId⟩
    hfind1 (by omega)
  constructor
  · unfold restoreSnapshot
    rw [hfind2]
  · intro k
    unfold restoreSnapshot
    rw [hfind2]
    dsimp only
    rw [restore_rebuild st0.widgets hnodup]

set_option maxRecDepth 100000 in
/-- C9 (counterexample): a fresh manager saves a snapshot, then 50 `clear`
mutations follow; each `clear` pushes one more snapshot and the 50-entry cap
evicts the saved one, so `restoreSnapshot` returns `false`. -/
theorem c9_counterexample :
    (restoreSnapshot
        (applyOps (saveSnapshot emptyStorage "update" none 0).2
          (List.replicate 50 (StorageOp.clearOp, 0)))
        (saveSnapshot emptyStorage "update" none 0).1).1 = false := by
  decide

theorem c9_witness :
    (restoreSnapshot
        (applyOps (saveSnapshot ⟨[("w", Json.str "m")], [], 0⟩ "update" none 5).2
          [(StorageOp.clearOp, 6)])
        (saveSnapshot ⟨[("w", Json.str "m")], [], 0⟩ "update" none 5).1).1 = true ∧
    jsMapGet (restoreSnapshot
        (applyOps (saveSnapshot ⟨[("w", Json.str "m")], [], 0⟩ "update" none 5).2
          [(StorageOp.clearOp, 6)])
        (saveSnapshot ⟨[("w", Json.str "m")], [], 0⟩ "update" none 5).1).2.widgets "w" =
      jsMapGet (⟨[("w", Json.str "m")], [], 0⟩ : StorageState).widgets "w" := by
  have h := c9_snapshot_restore_capped ⟨[("w", Json.str "m")], [], 0⟩
    "update" none 5 [(StorageOp.clearOp, 6)]
    (by intro s hs; simp at hs)
    (by simp)
    (by simp [maxSnapshotHistory])
  exact ⟨h.1, h.2 "w"⟩

/-! ## C10: serialization round-trip -/

theorem snapshotToJson_data (s : StorageSnapshot) :
    objGet (snapshotToJson s) "data" = Json.obj [] := by
  cases s.elementId <;>
    simp [snapshotToJson, objGet, jsMapGet]

/-- C10: `deserialize (serialize ())` returns `true` and preserves the widget
map — every stored key reads back its pre-serialization metadata — while no
snapshot contents survive: the `snapshots` field of the serialized JSON is an
array in which every entry has an empty `data` record, because the
`Map`-typed `data` field of a snapshot serializes to the empty object. -/
theorem c10_roundtrip (st : StorageState) (now now2 : ℕ)
    (hnodup : (st.widgets.map Prod.fst).Nodup) :
    (storageDeserialize st (storageSerialize st now) now2).1 = true ∧
    (∀ k, jsMapGet
        (storageDeserialize st (storageSerialize st now) now2).2.widgets k =
      jsMapGet st.widgets k) ∧
    (∃ items, objGet (storageSerialize st now) "snapshots" = Json.arr items ∧
      ∀ sj ∈ items, objGet sj "data" = Json.obj []) := by
  have hver : objGet (storageSerialize st now) "version" =
      Json.str "1.0.0" := by
    simp [storageSerialize, objGet, jsMapGet]
  have hwid : objGet (storageSerialize st now) "widgets" =
      Json.obj st.widgets := by
    simp [storageSerialize, objGet, jsMapGet]
  have hsnaps : objGet (storageSerialize st now) "snapshots" =
      Json.arr ((st.snapshots.drop (st.snapshots.length - 10)).map
        snapshotToJson) := by
    simp [storageSerialize, objGet, jsMapGet]
  have hbranch : (!jsTruthy (objGet (storageSerialize st now) "version") ||
      !jsTruthy (objGet (storageSerialize st now) "widgets")) = false := by
    rw [hver, hwid]
    rfl
  refine ⟨?_, ?_, ?_⟩
  · unfold storageDeserialize
    rw [hbranch]
    rfl
  · intro k
    unfold storageDeserialize
    rw [hbranch]
    dsimp only
    rw [hwid]
    have hclear : (storageClear st now2).widgets = [] := rfl
    rw [hclear]
    simp only [jsEntries]
    rw [restore_rebuild st.widgets hnodup]
    split <;> rfl
  · refine ⟨_, hsnaps, ?_⟩
    intro sj hsj
    rcases List.mem_map.1 hsj with ⟨s, _, rfl⟩
    exact snapshotToJson_data s

theorem c10_witness :
    (storageDeserialize
        (⟨[("w1", Json.obj [("type", Json.str "map")])],
          [⟨"snapshot-1-0", 0, [("w1", Json.str "x")], "update", none⟩],
          1⟩ : StorageState)
        (storageSerialize
          ⟨[("w1", Json.obj [("type", Json.str "map")])],
            [⟨"snapshot-1-0", 0, [("w1", Json.str "x")], "update", none⟩],
            1⟩ 3) 4).1 = true ∧
    jsMapGet (storageDeserialize
        (⟨[("w1", Json.obj [("type", Json.str "map")])],
          [⟨"snapshot-1-0", 0, [("w1", Json.str "x")], "update", none⟩],
          1⟩ : StorageState)
        (storageSerialize
          ⟨[("w1", Json.obj [("type", Json.str "map")])],
            [⟨"snapshot-1-0", 0, [("w1", Json.str "x")], "update", none⟩],
            1⟩ 3) 4).2.widgets "w1" =
      jsMapGet (⟨[("w1", Json.obj [("type", Json.str "map")])],
          [⟨"snapshot-1-0", 0, [("w1", Json.str "x")], "update", none⟩],
          1⟩ : StorageState).widgets "w1" := by
  have h := c10_roundtrip
    ⟨[("w1", Json.obj [("type", Json.str "map")])],
      [⟨"snapshot-1-0", 0, [("w1", Json.str "x")], "update", none⟩], 1⟩
    3 4 (by simp)
  exact ⟨h.1, h.2.1 "w1"⟩

/-! ## C6: the component count and `maxComponents` -/

/-- C6 (amended): the pipeline never applies `options.maxComponents` — the
only filtering of the component list is by `options.minConfidence`, so every
returned component has at least that confidence while the component COUNT can
exceed `maxComponents`. -/
theorem c6_only_confidence_filter (cosF sinF : ℚ → ℚ) (now : ℚ)
    (request : ExtractionRequest) :
    ∀ comp ∈ (runExtractionPipeline cosF sinF now request).components,
      request.options.minConfidence ≤ comp.confidence := by
  intro comp hcomp
  unfold runExtractionPipeline at hcomp
  dsimp only at hcomp
  have h := (List.mem_filter.1 hcomp).2
  simpa [ge_iff_le] using h

def diamondC6 (i : String) (x : ℚ) : RawElement :=
  { id := i, type := "diamond", x := x, y := 0, width := 10, height := 10 }

def reqC6 : ExtractionRequest :=
  { elements := [diamondC6 "d1" 0, diamondC6 "d2" 100],
    viewport := ⟨0, 0, 1000, 1000, 1000, 1000⟩,
    options :=
      { minConfidence := 0.3, enableRelationshipAnalysis := true,
        enableTokenOptimization := true, maxComponents := 1,
        analysisDepth := "standard" } }

theorem runExtractionPipeline_reqC6_length :
    (runExtractionPipeline (fun _ => 1) (fun _ => 0) 0 reqC6).components.length
      = 2 := by
  simp +decide [runExtractionPipeline, normalizeElements, normalizeAll,
    normalizeElement, calculateBoundingBox, jsOrStr, jsOrNum, jsOrUndef,
    knownTypes, detectContainers, sortByZ, insertByZ, claimChildren,
    groupsById, isContained, calculateOverlap, attachText, analyzeConnectors,
    assignRoles, analyzeRectangles, analyzeDiamonds, analyzeEllipses,
    analyzeTextElements, analyzeImages, analyzeConnectorRoles, detectWidgets,
    detectWidgetFromElement, convertToSemanticComponents, findElementById,
    createComponentMetadata, jsMapGet, jsMapHas, jsMapSet, List.foldl,
    List.find?, diamondC6, reqC6]
  norm_num

/-- C6 (counterexample): a request capped at `maxComponents = 1` still yields
2 components — the cap is never enforced. -/
theorem c6_counterexample :
    ((runExtractionPipeline (fun _ => 1) (fun _ => 0) 0 reqC6).components.length
        : ℚ) > reqC6.options.maxComponents := by
  rw [runExtractionPipeline_reqC6_length]
  norm_num [reqC6]

/-! ## C1: widget detection and the final component role -/

theorem normalizeAll_map_id (cosF sinF : ℚ → ℚ) (i : ℕ)
    (es : List RawElement) :
    (normalizeAll cosF sinF i es).map (fun e => e.id) =
      es.map (fun e => e.id) := by
  induction es generalizing i with
  | nil => rfl
  | cons e es ih => simp [normalizeAll, normalizeElement, ih]

theorem normalizeAll_mem (cosF sinF : ℚ → ℚ) (i : ℕ) (es : List RawElement)
    (el : RawElement) (hel : el ∈ es) :
    ∃ j, normalizeElement cosF sinF el j ∈ normalizeAll cosF sinF i es := by
  induction es generalizing i with
  | nil => cases hel
  | cons e es ih =>
    rw [normalizeAll]
    rcases List.mem_cons.1 hel with rfl | h
    · exact ⟨i, List.mem_cons_self _ _⟩
    · rcases ih (i + 1) h with ⟨j, hj⟩
      exact ⟨j, List.mem_cons_of_mem _ hj⟩

theorem detectWidgetFromText_isWidget_type (s : String)
    (h : (detectWidgetFromText s).isWidget = true) :
    ∃ ty, (detectWidgetFromText s).type? = some ty := by
  unfold detectWidgetFromText at h ⊢
  rcases hf : widgetPatterns.find? (fun p => p.1 s) with _ | p
  · rw [hf] at h; simp at h
  · rw [hf]; exact ⟨p.2.1, rfl⟩

theorem detectWidgetFromElement_elementId (now : ℚ) (e : NormalizedElement)
    (ras : List RoleAssignment) :
    (detectWidgetFromElement now e ras).elementId = e.id := by
  unfold detectWidgetFromElement
  split
  · rfl
  · dsimp only
    split
    · split <;> rfl
    · rfl

theorem detectWidgetFromElement_isWidget (now : ℚ) (e : NormalizedElement)
    (ras : List RoleAssignment) (t : String) (ht : e.text = some t)
    (hm : (detectWidgetFromText (jsTrim t)).isWidget = true) :
    (detectWidgetFromElement now e ras).isWidget = true := by
  rcases detectWidgetFromText_isWidget_type (jsTrim t) hm with ⟨ty, hty⟩
  unfold detectWidgetFromElement
  rw [ht]
  dsimp only
  rw [hty]
  dsimp only
  simp [hm]

theorem find?_detect_of_mem (now : ℚ) (ras : List RoleAssignment)
    (l : List NormalizedElement)
    (hnd : (l.map (fun e => e.id)).Nodup)
    (ne : NormalizedElement) (hne : ne ∈ l) :
    (l.map (fun e => detectWidgetFromElement now e ras)).find?
      (fun w => w.elementId = ne.id) =
      some (detectWidgetFromElement now ne ras) := by
  induction l with
  | nil => cases hne
  | cons b bs ih =>
    rw [List.map_cons] at hnd
    have hb_notin := (List.nodup_cons.1 hnd).1
    have hnd' := (List.nodup_cons.1 hnd).2
    rw [List.map_cons]
    by_cases hb : b.id = ne.id
    · have hbeq : b = ne := by
        rcases List.mem_cons.1 hne with h | hmem
        · exact h.symm
        · have : b.id ∈ bs.map (fun e => e.id) := by
            rw [hb]; exact List.mem_map_of_mem _ hmem
          exact absurd this hb_notin
      subst hbeq
      exact List.find?_cons_of_pos _ (by simp [detectWidgetFromElement_elementId])
    · rw [List.find?_cons_of_neg _ (by simp [detectWidgetFromElement_elementId, hb])]
      have hne' : ne ∈ bs := by
        rcases List.mem_cons.1 hne with h | hmem
        · exact absurd (h ▸ rfl) hb
        · exact hmem
      exact ih hnd' hne'

theorem filter_filter_self {α : Type} (l : List α) (p q : α → Bool)
    (h : ∀ e ∈ l, p e = true → q e = true) :
    (l.filter p).filter q = l.filter p := by
  rw [List.filter_eq_self]
  intro a ha
  exact h a (List.mem_of_mem_filter ha) (List.of_mem_filter ha)

theorem filter_filter_nil {α : Type} (l : List α) (p q : α → Bool)
    (h : ∀ e ∈ l, p e = true → q e = false) :
    (l.filter p).filter q = [] := by
  rw [List.filter_eq_nil_iff]
  intro a ha
  simp [h a (List.mem_of_mem_filter ha) (List.of_mem_filter ha)]

/-- The candidate list of `detectWidgets` over the pipeline's bucket
concatenation: only the rectangle and text buckets survive the
rectangle-or-text filter, each in full. -/
theorem detectWidgets_candidates (cosF sinF : ℚ → ℚ) (els : List RawElement)
    (now : ℚ) (ras : List RoleAssignment) :
    detectWidgets now
      ((normalizeElements cosF sinF els).rectangles ++
        (normalizeElements cosF sinF els).diamonds ++
        (normalizeElements cosF sinF els).ellipses ++
        (normalizeElements cosF sinF els).text ++
        (normalizeElements cosF sinF els).images ++
        (normalizeElements cosF sinF els).other) ras =
      ((normalizeAll cosF sinF 0 els).filter (fun e => e.type = "rectangle") ++
        (normalizeAll cosF sinF 0 els).filter (fun e => e.type = "text")).map
        (fun e => detectWidgetFromElement now e ras) := by
  unfold detectWidgets
  dsimp only
  congr 1
  unfold normalizeElements
  dsimp only
  rw [List.filter_append, List.filter_append, List.filter_append,
    List.filter_append, List.filter_append]
  rw [filter_filter_self (normalizeAll cosF sinF 0 els)
    (fun e => e.type = "rectangle")
    (fun el => el.type = "rectangle" ∨ el.type = "text")
    (by intro e _ hp; simp only [decide_eq_true_eq] at hp ⊢; exact Or.inl hp)]
  rw [filter_filter_nil (normalizeAll cosF sinF 0 els)
    (fun e => e.type = "diamond")
    (fun el => el.type = "rectangle" ∨ el.type = "text")
    (by intro e _ hp; simp only [decide_eq_true_eq] at hp
        simp only [decide_eq_false_iff_not]
        rw [hp]; decide)]
  rw [filter_filter_nil (normalizeAll cosF sinF 0 els)
    (fun e => e.type = "ellipse")
    (fun el => el.type = "rectangle" ∨ el.type = "text")
    (by intro e _ hp; simp only [decide_eq_true_eq] at hp
        simp only [decide_eq_false_iff_not]
        rw [hp]; decide)]
  rw [filter_filter_self (normalizeAll cosF sinF 0 els)
    (fun e => e.type = "text")
    (fun el => el.type = "rectangle" ∨ el.type = "text")
    (by intro e _ hp; simp only [decide_eq_true_eq] at hp ⊢; exact Or.inr hp)]
  rw [filter_filter_nil (normalizeAll cosF sinF 0 els)
    (fun e => e.type = "image")
    (fun el => el.type = "rectangle" ∨ el.type = "text")
    (by intro e _ hp; simp only [decide_eq_true_eq] at hp
        simp only [decide_eq_false_iff_not]
        rw [hp]; decide)]
  rw [filter_filter_nil (normalizeAll cosF sinF 0 els)
    (fun e => ¬ e.type ∈ knownTypes)
    (fun el => el.type = "rectangle" ∨ el.type = "text")
    (by intro e _ hp
        simp only [decide_eq_true_eq, knownTypes, List.mem_cons,
          List.not_mem_nil, or_false] at hp
        simp only [decide_eq_false_iff_not]
        push_neg at hp
        rintro (h | h)
        · exact hp.1 h
        · exact hp.2.2.2.2.2.1 h)]
  simp

/-- Every emitted semantic component comes from a role assignment whose
element resolves; its `id` is the assignment's `elementId`, and when the
widget-detection lookup for that id succeeds the final role is `WIDGET`
exactly when the detection's `isWidget` flag is set. -/
theorem convertToSemanticComponents_role (ras : List RoleAssignment)
    (groups : ElementGroups) (hier : ContainerHierarchy)
    (tas : List TextAttachment) (conns : List Connector)
    (wds : List WidgetDetection) (comp : SemanticComponent)
    (hc : comp ∈ convertToSemanticComponents ras groups hier tas conns wds) :
    ∃ a ∈ ras, comp.id = a.elementId ∧
      ∀ wd, wds.find? (fun w => w.elementId = a.elementId) = some wd →
        comp.role = (if wd.isWidget then ComponentRole.WIDGET else a.role) := by
  unfold convertToSemanticComponents at hc
  rcases List.mem_filterMap.1 hc with ⟨a, ha, heq⟩
  refine ⟨a, ha, ?_⟩
  rcases hfind : findElementById a.elementId groups with _ | el
  · rw [hfind] at heq; exact absurd heq (by simp)
  · rw [hfind] at heq
    dsimp only at heq
    rcases Option.some.inj heq with rfl
    refine ⟨rfl, ?_⟩
    intro wd hwd
    dsimp only
    rw [hwd]

/-- C1 (amended): the widget-role override holds for every component that the
pipeline actually EMITS for the matching element — when widget detection is
not disabled and element ids are distinct, any returned component whose id is
that of a rectangle/text element whose (trimmed) text matches a widget
pattern has final role `WIDGET`.  (The original claim fails because an
element can fail to be emitted at all: the `minConfidence` filter runs on the
role classifier's confidence, which widget detection never updates.) -/
theorem c1_widget_role_override (cosF sinF : ℚ → ℚ) (now : ℚ)
    (request : ExtractionRequest) (el : RawElement) (t : String)
    (hen : request.options.enableWidgetDetection ≠ some false)
    (hnodup : (request.elements.map (fun e => e.id)).Nodup)
    (hel : el ∈ request.elements)
    (htype : el.type = "rectangle" ∨ el.type = "text")
    (htext : jsOrUndef el.text = some t)
    (hmatch : (detectWidgetFromText (jsTrim t)).isWidget = true) :
    ∀ comp ∈ (runExtractionPipeline cosF sinF now request).components,
      comp.id = el.id → comp.role = ComponentRole.WIDGET := by
  intro comp hcomp hid
  rcases normalizeAll_mem cosF sinF 0 request.elements el hel with ⟨j, hj⟩
  unfold runExtractionPipeline at hcomp
  dsimp only at hcomp
  rw [if_pos hen] at hcomp
  have hc2 := (List.mem_filter.1 hcomp).1
  rcases convertToSemanticComponents_role _ _ _ _ _ _ _ hc2 with
    ⟨a, ha, hcid, hall⟩
  have hkey : a.elementId = el.id := by rw [← hcid]; exact hid
  rw [detectWidgets_candidates] at hall
  rw [hkey] at hall
  have hmem2 : normalizeElement cosF sinF el j ∈
      (normalizeAll cosF sinF 0 request.elements).filter
        (fun e => e.type = "rectangle") ++
      (normalizeAll cosF sinF 0 request.elements).filter
        (fun e => e.type = "text") := by
    rcases htype with h | h
    · exact List.mem_append_left _
        (List.mem_filter.2 ⟨hj, by simp only [decide_eq_true_eq]; exact h⟩)
    · exact List.mem_append_right _
        (List.mem_filter.2 ⟨hj, by simp only [decide_eq_true_eq]; exact h⟩)
  have hall_nodup : ((normalizeAll cosF sinF 0 request.elements).map
      (fun e => e.id)).Nodup := by
    rw [normalizeAll_map_id]; exact hnodup
  have hnodup2 : (((normalizeAll cosF sinF 0 request.elements).filter
        (fun e => e.type = "rectangle") ++
      (normalizeAll cosF sinF 0 request.elements).filter
        (fun e => e.type = "text")).map (fun e => e.id)).Nodup := by
    rw [List.map_append]
    refine List.Nodup.append ?_ ?_ ?_
    · exact ((List.filter_sublist _).map _).nodup hall_nodup
    · exact ((List.filter_sublist _).map _).nodup hall_nodup
    · rw [List.disjoint_left]
      intro k hk1 hk2
      rcases List.mem_map.1 hk1 with ⟨x, hx, rfl⟩
      rcases List.mem_map.1 hk2 with ⟨y, hy, hxy⟩
      have hxeq := List.inj_on_of_nodup_map hall_nodup
        (List.mem_of_mem_filter hx) (List.mem_of_mem_filter hy) hxy.symm
      have hxt := List.of_mem_filter hx
      have hyt := List.of_mem_filter hy
      subst hxeq
      simp only [decide_eq_true_eq] at hxt hyt
      rw [hxt] at hyt
      exact absurd hyt (by decide)
  have hrole2 := hall _ (find?_detect_of_mem now _ _ hnodup2 _ hmem2)
  rw [detectWidgetFromElement_isWidget now (normalizeElement cosF sinF el j) _
    t htext hmatch] at hrole2
  rw [if_pos rfl] at hrole2
  exact hrole2.trans rfl

def rectC1 : RawElement :=
  { id := "r1", type := "rectangle", x := 0, y := 0, width := 100,
    height := 100, text := some "[MAP]" }

def reqC1x : ExtractionRequest :=
  { elements := [rectC1],
    viewport := ⟨0, 0, 1000, 1000, 1000, 1000⟩,
    options :=
      { minConfidence := 0.5, enableRelationshipAnalysis := true,
        enableTokenOptimization := true, maxComponents := 100,
        analysisDepth := "standard" } }

def reqC1w : ExtractionRequest :=
  { elements := [rectC1],
    viewport := ⟨0, 0, 1000, 1000, 1000, 1000⟩,
    options :=
      { minConfidence := 0, enableRelationshipAnalysis := true,
        enableTokenOptimization := true, maxComponents := 100,
        analysisDepth := "standard" } }

/-- C1 (counterexample): a lone rectangle whose text `"[MAP]"` matches the
bracket-tag widget pattern is not emitted as a component AT ALL when the role
classifier's fallback confidence (COMPONENT, 0.3) falls below
`minConfidence = 0.5`: widget detection overrides only the role, never the
confidence used by the filter, so no component with role `WIDGET` (or any
other role) is returned for the element. -/
theorem c1_counterexample :
    (detectWidgetFromText (jsTrim "[MAP]")).isWidget = true ∧
    rectC1 ∈ reqC1x.elements ∧ rectC1.type = "rectangle" ∧
    jsOrUndef rectC1.text = some "[MAP]" ∧
    reqC1x.options.enableWidgetDetection ≠ some false ∧
    (runExtractionPipeline (fun _ => 1) (fun _ => 0) 0 reqC1x).components
      = [] := by
  refine ⟨by decide, by simp [reqC1x], rfl, by decide, by decide, ?_⟩
  simp +decide [runExtractionPipeline, normalizeElements, normalizeAll,
    normalizeElement, calculateBoundingBox, jsOrStr, jsOrNum, jsOrUndef,
    knownTypes, detectContainers, sortByZ, insertByZ, claimChildren,
    groupsById, isContained, calculateOverlap, attachText, analyzeConnectors,
    assignRoles, analyzeRectangles, analyzeDiamonds, analyzeEllipses,
    analyzeTextElements, analyzeImages, analyzeConnectorRoles,
    classifyRectangle, rectAttachedText, rectText, rectHasConnectors,
    rectButtonRule, rectCardRule, rectProcessRule, rectDatabaseRule,
    rectContainerRule, rectLargeRule, rectFallbackRule, detectWidgets,
    detectWidgetFromElement, detectWidgetFromText, createWidgetMetadata,
    convertToSemanticComponents, findElementById, createComponentMetadata,
    jsMapGet, jsMapHas, jsMapSet, List.foldl, List.find?, rectC1, reqC1x]
  norm_num
  simp +decide [detectContainers, sortByZ, insertByZ, claimChildren,
    groupsById, isContained, calculateOverlap, jsMapGet, jsMapHas, jsMapSet,
    List.foldl, List.find?]
  norm_num

theorem c1_witness :
    ((runExtractionPipeline (fun _ => 1) (fun _ => 0) 0 reqC1w).components.map
        (fun c => c.id) = ["r1"]) ∧
    ((runExtractionPipeline (fun _ => 1) (fun _ => 0) 0 reqC1w).components.all
        (fun comp => decide (comp.id = "r1" →
          comp.role = ComponentRole.WIDGET)) = true) := by
  constructor
  · simp +decide [runExtractionPipeline, normalizeElements, normalizeAll,
      normalizeElement, calculateBoundingBox, jsOrStr, jsOrNum, jsOrUndef,
      knownTypes, detectContainers, sortByZ, insertByZ, claimChildren,
      groupsById, isContained, calculateOverlap, attachText, analyzeConnectors,
      assignRoles, analyzeRectangles, analyzeDiamonds, analyzeEllipses,
      analyzeTextElements, analyzeImages, analyzeConnectorRoles,
      classifyRectangle, rectAttachedText, rectText, rectHasConnectors,
      rectButtonRule, rectCardRule, rectProcessRule, rectDatabaseRule,
      rectContainerRule, rectLargeRule, rectFallbackRule, detectWidgets,
      detectWidgetFromElement, detectWidgetFromText, createWidgetMetadata,
      convertToSemanticComponents, findElementById, createComponentMetadata,
      jsMapGet, jsMapHas, jsMapSet, List.foldl, List.find?, rectC1, reqC1w]
    norm_num
    simp +decide [detectContainers, sortByZ, insertByZ, claimChildren,
      groupsById, isContained, calculateOverlap, jsMapGet, jsMapHas, jsMapSet,
      List.foldl, List.find?]
    norm_num
  · rw [List.all_eq_true]
    intro comp hmem
    rw [decide_eq_true_eq]
    intro hid
    exact c1_widget_role_override (fun _ => 1) (fun _ => 0) 0 reqC1w rectC1
      "[MAP]" (by decide) (by simp [reqC1w, rectC1]) (by simp [reqC1w])
      (Or.inl rfl) (by decide) (by decide) comp hmem hid

theorem c6_witness :
    ((runExtractionPipeline (fun _ => 1) (fun _ => 0) 0 reqC6).components.all
      (fun comp => decide (reqC6.options.minConfidence ≤ comp.confidence)))
      = true := by
  rw [List.all_eq_true]
  intro comp hmem
  rw [decide_eq_true_eq]
  exact c6_only_confidence_filter (fun _ => 1) (fun _ => 0) 0 reqC6 comp hmem
